import Mathlib

/-!
# Workshop operator: pipeline and service-mesh reconcilers

A shallow embedding of `pkg/controller/workshop/pipeline_reconciler.go` and
`pkg/controller/workshop/servicemesh_reconciler.go`.

* Go strings are modelled by Lean `String` (texts are taken to be valid UTF-8; every pattern the
  code searches for is ASCII, so byte-level and character-level search agree).
* A Go `error` is `Option GoError`, `none` being `nil`.
* The object store, the install-plan approver and the workload-status client are external: each
  answer they give is read from an `Env` (one answer per call, indexed by the call's arguments),
  every call is appended to a trace, and a successful ConfigMap `Update` is persisted in the
  cluster state.
-/

namespace WorkshopOperator

/-! ## Text helpers (`strings.Split`, `strings.Contains`, `strings.Join`, `strings.ReplaceAll`) -/

/-- `strings.Contains(s, pat)`: `pat` occurs in `s` as a contiguous block. -/
def containsChars (pat : List Char) : List Char → Bool
  | [] => pat.isPrefixOf []
  | c :: s => pat.isPrefixOf (c :: s) || containsChars pat s

/-- `strings.Split(s, "\n")`: the pieces between the line feeds; never an empty slice. -/
def splitLines : List Char → List (List Char)
  | [] => [[]]
  | c :: s =>
    if c = '\n' then [] :: splitLines s
    else
      match splitLines s with
      | [] => [[c]]
      | l :: ls => (c :: l) :: ls

/-- `strings.Join(lines, "\n")`. -/
def joinLines : List (List Char) → List Char
  | [] => []
  | [l] => l
  | l :: l' :: ls => l ++ '\n' :: joinLines (l' :: ls)

/-- The loop of lines 152-157: the first line containing `pat` is overwritten by `line`, then
`break`. -/
def replaceFirstLine (pat line : List Char) : List (List Char) → List (List Char)
  | [] => []
  | l :: ls => if containsChars pat l then line :: ls else l :: replaceFirstLine pat line ls

/-- `strings.ReplaceAll(s, old, new)` for a non-empty `old`: scan from the left, replace every
non-overlapping occurrence. The counter is the number of characters of a matched occurrence still
to be skipped. -/
def replaceAllChars (old new : List Char) : Nat → List Char → List Char
  | _, [] => []
  | k + 1, _ :: s => replaceAllChars old new k s
  | 0, c :: s =>
    if old.isPrefixOf (c :: s) then new ++ replaceAllChars old new (old.length - 1) s
    else c :: replaceAllChars old new 0 s

/-- The string searched for in the lines of Kiali's `config.yaml` (line 153). -/
def appLabelMarker : String := "app_label_name:"

/-- The line written in place of the matching one (line 154). -/
def appLabelLine : String := "  app_label_name: app.kubernetes.io/instance"

/-- The injector template fragment that is replaced (line 189). -/
def injectorOld : String := "index .ObjectMeta.Labels \"app\""

/-- Its replacement (line 190). -/
def injectorNew : String := "index .ObjectMeta.Labels \"deploymentconfig\""

/-- Lines 150-158 of `addServiceMesh`: split `config.yaml` on line feeds, overwrite the first line
that contains `app_label_name:`, join again. -/
def kialiRewrite (config : String) : String :=
  ⟨joinLines (replaceFirstLine appLabelMarker.data appLabelLine.data (splitLines config.data))⟩

/-- Lines 188-190 of `addServiceMesh`: `strings.ReplaceAll` on the injector `config`. -/
def injectorRewrite (config : String) : String :=
  ⟨replaceAllChars injectorOld.data injectorNew.data 0 config.data⟩

/-- Two character lists are compatible when one is a prefix of the other. -/
def compatChars (a b : List Char) : Bool := a.isPrefixOf b || b.isPrefixOf a

/-- The number a list of decimal digit characters stands for. -/
def digitsValue (ds : List Char) : Nat :=
  ds.foldl (fun acc ch => 10 * acc + (ch.toNat - 48)) 0

/-! ## Data model -/

/-- A non-nil Go `error`. The reconcilers only ever ask whether it is an "already exists"
conflict. -/
inductive GoError where
  | alreadyExists (msg : String)
  | other (msg : String)
  deriving DecidableEq, Repr

/-- `errors.IsAlreadyExists(err)`; false on `nil`. -/
def IsAlreadyExists : Option GoError → Bool
  | some (GoError.alreadyExists _) => true
  | _ => false

/-- `time.Second`, in nanoseconds (the unit of `time.Duration`). -/
def Second : Int := 1000000000

/-- `reconcile.Result`. -/
structure Result where
  Requeue : Bool
  RequeueAfter : Int
  deriving DecidableEq, Repr

/-- `reconcile.Result{}`: the zero value. -/
def Result.empty : Result := ⟨false, 0⟩

/-- The pair `(reconcile.Result, error)` every stage and orchestrator returns. -/
structure Ret where
  result : Result
  err : Option GoError
  deriving DecidableEq, Repr

/-- What the scheduling framework does with a returned pair. -/
inductive Outcome where
  | Done
  | RequeueAfter (d : Int)
  | Error (cause : GoError)
  deriving DecidableEq, Repr

/-- The scheduler's reading of `(Result, error)`: a non-nil error is an `Error` whatever the
result says; otherwise a result asking for a requeue is `RequeueAfter`; otherwise `Done`. -/
def Ret.outcome (r : Ret) : Outcome :=
  match r.err with
  | some e => Outcome.Error e
  | none => if r.result.Requeue || decide (0 < r.result.RequeueAfter)
            then Outcome.RequeueAfter r.result.RequeueAfter else Outcome.Done

/-- An operator-hub subscription reference of the Workshop spec. -/
structure OperatorHub where
  Channel : String
  ClusterServiceVersion : String
  deriving DecidableEq, Repr

/-- The fields of `Spec.Infrastructure.ServiceMesh` that are read. -/
structure ServiceMeshSpec where
  Enabled : Bool
  ServiceMeshOperatorHub : OperatorHub
  ElasticSearchOperatorHub : OperatorHub
  JaegerOperatorHub : OperatorHub
  KialiOperatorHub : OperatorHub
  deriving DecidableEq, Repr

/-- The fields of `Spec.Infrastructure.Pipeline` that are read. -/
structure PipelineSpec where
  Enabled : Bool
  OperatorHub : OperatorHub
  deriving DecidableEq, Repr

/-- The fields of `Spec.Infrastructure` that are read. -/
structure InfrastructureSpec where
  ServiceMesh : ServiceMeshSpec
  ServerlessEnabled : Bool
  Pipeline : PipelineSpec
  StagingName : String
  deriving DecidableEq, Repr

/-- The fields of `Workshop.Status` that are written. -/
structure WorkshopStatus where
  ServiceMesh : String
  Pipeline : String
  deriving DecidableEq, Repr

/-- The Workshop document (`openshiftv1alpha1.Workshop`), restricted to what the two reconcilers
touch. `ServerlessEnabled` is `Spec.Infrastructure.Serverless.Enabled` and `StagingName` is
`Spec.Infrastructure.Project.StagingName`. -/
structure Workshop where
  Infrastructure : InfrastructureSpec
  Status : WorkshopStatus
  deriving DecidableEq, Repr

/-- Modelled from the spec: the constant `util.OperatorStatus.Installed` is declared outside the
two source files; the spec names the install state `Installed`. -/
def OperatorStatusInstalled : String := "Installed"

/-- The objects the reconcilers create, each identified by the arguments handed to its
constructor in the `deployment`, `smcp` and `smmr` packages. -/
inductive Obj where
  | Subscription (name ns pkg channel csv : String)
  | Namespace (name : String)
  | ServiceMeshControlPlane (name ns : String)
  | Role (name ns : String)
  | RoleBindingUser (name ns username roleName roleKind : String)
  | ServiceMeshMemberRoll (name ns : String) (members : List String)
  deriving DecidableEq, Repr

/-- A ConfigMap: its identity and its `Data`, a list of key/value pairs. -/
structure ConfigMap where
  Name : String
  Namespace : String
  Data : List (String × String)
  deriving DecidableEq, Repr

/-- Reading `cm.Data[key]`: the value of the first pair with that key, `""` when there is none
(the zero value of a Go map lookup). -/
def ConfigMap.get (cm : ConfigMap) (key : String) : String :=
  match cm.Data.lookup key with
  | some v => v
  | none => ""

/-- The assignment `cm.Data[key] = value`. -/
def ConfigMap.set (cm : ConfigMap) (key value : String) : ConfigMap :=
  ⟨cm.Name, cm.Namespace, (key, value) :: cm.Data.filter (fun kv => kv.1 != key)⟩

/-- One call made to an external collaborator. -/
inductive Op where
  | Create (o : Obj)
  | ApproveInstallPlan (csv name ns : String)
  | GetDeploymentStatus (name ns : String)
  | GetEffectiveConfigMap (name ns : String)
  | Update (cm : ConfigMap)
  | GetDeploymentPod (name ns label : String)
  | Get (name ns : String)
  | Delete (name ns : String)
  | StatusUpdate (status : WorkshopStatus)
  deriving DecidableEq, Repr

/-- The answers of the external collaborators in one reconciliation cycle, one per call,
indexed by the arguments of the call. -/
structure Env where
  create : Obj → Option GoError
  approveInstallPlan : String → String → String → Option GoError
  deploymentStatus : String → String → Bool
  effectiveConfigMap : String → String → Option GoError
  update : ConfigMap → Option GoError
  deploymentPod : String → String → String → Except GoError String
  get : String → String → Option GoError
  delete : String → String → Option GoError
  statusUpdate : WorkshopStatus → Option GoError

/-- The cluster as the reconcilers see and change it: the `Data` of the ConfigMap of each name
and namespace, and the calls made so far. -/
structure Cluster where
  configMaps : String → String → List (String × String)
  trace : List Op

/-- A computation that reads the answers of the environment and changes the cluster. -/
def Prog (α : Type) : Type := Env → Cluster → α × Cluster

instance : Monad Prog where
  pure a := fun _ c => (a, c)
  bind x f := fun env c => f (x env c).1 env (x env c).2

/-- Append a call to the trace. -/
def Cluster.log (c : Cluster) (op : Op) : Cluster := ⟨c.configMaps, c.trace ++ [op]⟩

/-- Overwrite the stored `Data` of the ConfigMap of the same name and namespace. -/
def Cluster.store (c : Cluster) (cm : ConfigMap) : Cluster :=
  ⟨fun name ns => if name = cm.Name ∧ ns = cm.Namespace then cm.Data else c.configMaps name ns,
    c.trace⟩

/-- `r.client.Create(ctx, obj)`. -/
def clientCreate (o : Obj) : Prog (Option GoError) :=
  fun env c => (env.create o, c.log (Op.Create o))

/-- `r.ApproveInstallPlan(clusterServiceVersion, name, namespace)`: its body is outside the two
source files; its only result is an `error`. -/
def ApproveInstallPlan (csv name ns : String) : Prog (Option GoError) :=
  fun env c => (env.approveInstallPlan csv name ns, c.log (Op.ApproveInstallPlan csv name ns))

/-- `k8sclient.GetDeploymentStatus(name, namespace)`. -/
def GetDeploymentStatus (name ns : String) : Prog Bool :=
  fun env c => (env.deploymentStatus name ns, c.log (Op.GetDeploymentStatus name ns))

/-- Modelled from the spec: `r.GetEffectiveConfigMap(instance, name, namespace)` is declared
outside the two source files; by the spec it reads the effective configuration document. It
answers an error, or the ConfigMap the cluster holds under that name and namespace. -/
def GetEffectiveConfigMap (name ns : String) : Prog (Except GoError ConfigMap) :=
  fun env c =>
    (match env.effectiveConfigMap name ns with
      | some e => Except.error e
      | none => Except.ok ⟨name, ns, c.configMaps name ns⟩,
     c.log (Op.GetEffectiveConfigMap name ns))

/-- `r.client.Update(ctx, configMap)`: when it succeeds the cluster holds the new ConfigMap. -/
def clientUpdate (cm : ConfigMap) : Prog (Option GoError) :=
  fun env c =>
    match env.update cm with
    | some e => (some e, c.log (Op.Update cm))
    | none => (none, (c.log (Op.Update cm)).store cm)

/-- `k8sclient.GetDeploymentPod(name, namespace, label)`. -/
def GetDeploymentPod (name ns label : String) : Prog (Except GoError String) :=
  fun env c => (env.deploymentPod name ns label, c.log (Op.GetDeploymentPod name ns label))

/-- `r.client.Get(ctx, NamespacedName, found)` for a pod. -/
def clientGet (name ns : String) : Prog (Option GoError) :=
  fun env c => (env.get name ns, c.log (Op.Get name ns))

/-- `r.client.Delete(ctx, found)` for the pod just fetched. -/
def clientDelete (name ns : String) : Prog (Option GoError) :=
  fun env c => (env.delete name ns, c.log (Op.Delete name ns))

/-- `r.client.Status().Update(ctx, instance)`. -/
def statusUpdate (status : WorkshopStatus) : Prog (Option GoError) :=
  fun env c => (env.statusUpdate status, c.log (Op.StatusUpdate status))

/-- The condition `err != nil && !errors.IsAlreadyExists(err)` guarding every create. -/
def createFailed (err : Option GoError) : Bool := err.isSome && !IsAlreadyExists err

/-! ## pipeline_reconciler.go -/

/-- The function `addPipeline`. -/
def addPipeline (inst : Workshop) : Prog Ret := do
  let name := "openshift-pipelines-operator-rh"
  let channel := inst.Infrastructure.Pipeline.OperatorHub.Channel
  let clusterServiceVersion := inst.Infrastructure.Pipeline.OperatorHub.ClusterServiceVersion
  let pipelineSubscription :=
    Obj.Subscription name "openshift-operators" name channel clusterServiceVersion
  let err ← clientCreate pipelineSubscription
  if createFailed err then
    return ⟨Result.empty, err⟩
  let err ← ApproveInstallPlan clusterServiceVersion name "openshift-operators"
  if err.isSome then
    return ⟨Result.empty, err⟩
  return ⟨Result.empty, none⟩

/-- The function `reconcilePipeline`; the second component is the document as the call leaves it
in memory. -/
def reconcilePipeline (inst : Workshop) : Prog (Ret × Workshop) := do
  let enabledPipeline := inst.Infrastructure.Pipeline.Enabled
  if enabledPipeline then
    let r ← addPipeline inst
    if r.err.isSome then
      return (r, inst)
    if inst.Status.Pipeline ≠ OperatorStatusInstalled then
      let inst : Workshop := ⟨inst.Infrastructure, ⟨inst.Status.ServiceMesh, OperatorStatusInstalled⟩⟩
      let err ← statusUpdate inst.Status
      if err.isSome then
        return (⟨Result.empty, err⟩, inst)
      return (⟨Result.empty, none⟩, inst)
    return (⟨Result.empty, none⟩, inst)
  return (⟨Result.empty, none⟩, inst)

/-! ## servicemesh_reconciler.go -/

/-- The function `addElasticSearchOperator`. -/
def addElasticSearchOperator (inst : Workshop) : Prog Ret := do
  let channel := inst.Infrastructure.ServiceMesh.ElasticSearchOperatorHub.Channel
  let clusterserviceversion :=
    inst.Infrastructure.ServiceMesh.ElasticSearchOperatorHub.ClusterServiceVersion
  let redhatOperatorsNamespace := Obj.Namespace "openshift-operators-redhat"
  let err ← clientCreate redhatOperatorsNamespace
  if createFailed err then
    return ⟨Result.empty, err⟩
  let subscription := Obj.Subscription "elasticsearch-operator" "openshift-operators-redhat"
    "elasticsearch-operator" channel clusterserviceversion
  let err ← clientCreate subscription
  if createFailed err then
    return ⟨Result.empty, err⟩
  let err ← ApproveInstallPlan clusterserviceversion "elasticsearch-operator"
    "openshift-operators-redhat"
  if err.isSome then
    return ⟨Result.empty, err⟩
  return ⟨Result.empty, none⟩

/-- The function `addJaegerOperator`. -/
def addJaegerOperator (inst : Workshop) : Prog Ret := do
  let channel := inst.Infrastructure.ServiceMesh.JaegerOperatorHub.Channel
  let clusterserviceversion :=
    inst.Infrastructure.ServiceMesh.JaegerOperatorHub.ClusterServiceVersion
  let subscription := Obj.Subscription "jaeger-product" "openshift-operators"
    "jaeger-product" channel clusterserviceversion
  let err ← clientCreate subscription
  if createFailed err then
    return ⟨Result.empty, err⟩
  let err ← ApproveInstallPlan clusterserviceversion "jaeger-product" "openshift-operators"
  if err.isSome then
    return ⟨Result.empty, err⟩
  return ⟨Result.empty, none⟩

/-- The function `addKialiOperator`. -/
def addKialiOperator (inst : Workshop) : Prog Ret := do
  let channel := inst.Infrastructure.ServiceMesh.KialiOperatorHub.Channel
  let clusterserviceversion :=
    inst.Infrastructure.ServiceMesh.KialiOperatorHub.ClusterServiceVersion
  let subscription := Obj.Subscription "kiali-ossm" "openshift-operators"
    "kiali-ossm" channel clusterserviceversion
  let err ← clientCreate subscription
  if createFailed err then
    return ⟨Result.empty, err⟩
  let err ← ApproveInstallPlan clusterserviceversion "kiali-ossm" "openshift-operators"
  if err.isSome then
    return ⟨Result.empty, err⟩
  return ⟨Result.empty, none⟩

/-- The values the loop counter of lines 96-125 takes: `1, 2, ..., users`, none when
`users < 1`. (`users` is a Go `int`; the counter does not wrap for any count below the largest
`int`.) -/
def userIds (users : Int) : List Nat := List.range' 1 users.toNat

/-- The list `istioMembers` as the loop of lines 95-125 builds it when no create fails: one
`fmt.Sprintf("%s%d", StagingName, id)` appended per iteration. -/
def istioMembers (stagingName : String) (users : Int) : List String :=
  (userIds users).foldl (fun members id => members ++ [stagingName ++ toString id]) []

/-- The loop of lines 96-125 over the remaining counter values: it yields the early return of
`addServiceMesh` when a create fails, and the member list otherwise. -/
def userLoop (stagingName : String) :
    List Nat → List String → Prog (Except Ret (List String))
  | [], istioMembers => pure (Except.ok istioMembers)
  | id :: ids, istioMembers => do
    let username := "user" ++ toString id
    let stagingProjectName := stagingName ++ toString id
    let istioMembers := istioMembers ++ [stagingProjectName]
    let jaegerRole := Obj.Role (username ++ "-jaeger") "istio-system"
    let err ← clientCreate jaegerRole
    if createFailed err then
      return Except.error ⟨Result.empty, err⟩
    let JaegerRoleBinding := Obj.RoleBindingUser (username ++ "-jaeger") "istio-system"
      username (username ++ "-jaeger") "Role"
    let err ← clientCreate JaegerRoleBinding
    if createFailed err then
      return Except.error ⟨Result.empty, err⟩
    userLoop stagingName ids istioMembers

/-- Lines 144-179 of `addServiceMesh`: the Kiali ConfigMap is read, rewritten, written back only
when the text changed, and the Kiali pod is deleted after a successful write. `some r` is an
early return of `addServiceMesh`, `none` means the function goes on. -/
def correctKialiConfig : Prog (Option Ret) := do
  let res ← GetEffectiveConfigMap "kiali" "istio-system"
  match res with
  | Except.error err => return some ⟨Result.empty, some err⟩
  | Except.ok kialiConfigMap =>
    let newConfig := kialiRewrite (kialiConfigMap.get "config.yaml")
    if kialiConfigMap.get "config.yaml" ≠ newConfig then
      let kialiConfigMap := kialiConfigMap.set "config.yaml" newConfig
      let err ← clientUpdate kialiConfigMap
      if err.isSome then
        return some ⟨Result.empty, err⟩
      let pod ← GetDeploymentPod "kiali" "istio-system" "app"
      match pod with
      | Except.error _ => return none
      | Except.ok kialipodName =>
        let err ← clientGet kialipodName "istio-system"
        if err.isSome then
          return none
        let err ← clientDelete kialipodName "istio-system"
        if err.isSome then
          return some ⟨Result.empty, err⟩
        return none
    return none

/-- Lines 181-211 of `addServiceMesh`: the same for the sidecar injector ConfigMap. -/
def correctInjectorConfig : Prog (Option Ret) := do
  let res ← GetEffectiveConfigMap "istio-sidecar-injector" "istio-system"
  match res with
  | Except.error err => return some ⟨Result.empty, some err⟩
  | Except.ok injectorConfigMap =>
    let newConfig := injectorRewrite (injectorConfigMap.get "config")
    if injectorConfigMap.get "config" ≠ newConfig then
      let injectorConfigMap := injectorConfigMap.set "config" newConfig
      let err ← clientUpdate injectorConfigMap
      if err.isSome then
        return some ⟨Result.empty, err⟩
      let pod ← GetDeploymentPod "sidecarInjectorWebhook" "istio-system" "app"
      match pod with
      | Except.error _ => return none
      | Except.ok injectorPodName =>
        let err ← clientGet injectorPodName "istio-system"
        if err.isSome then
          return none
        let err ← clientDelete injectorPodName "istio-system"
        if err.isSome then
          return some ⟨Result.empty, err⟩
        return none
    return none

/-- The common shape of `correctKialiConfig` and `correctInjectorConfig`: the ConfigMap `name`,
its key `key`, the deployment `deploy` whose pod is restarted and the text rewrite. -/
def correctConfig (name key deploy : String) (rewrite : String → String) : Prog (Option Ret) := do
  let res ← GetEffectiveConfigMap name "istio-system"
  match res with
  | Except.error err => return some ⟨Result.empty, some err⟩
  | Except.ok configMap =>
    let newConfig := rewrite (configMap.get key)
    if configMap.get key ≠ newConfig then
      let configMap := configMap.set key newConfig
      let err ← clientUpdate configMap
      if err.isSome then
        return some ⟨Result.empty, err⟩
      let pod ← GetDeploymentPod deploy "istio-system" "app"
      match pod with
      | Except.error _ => return none
      | Except.ok podName =>
        let err ← clientGet podName "istio-system"
        if err.isSome then
          return none
        let err ← clientDelete podName "istio-system"
        if err.isSome then
          return some ⟨Result.empty, err⟩
        return none
    return none

/-- The text stored under `key` in the ConfigMap `name` of namespace `istio-system`. -/
def Cluster.configText (c : Cluster) (name key : String) : String :=
  ConfigMap.get ⟨name, "istio-system", c.configMaps name "istio-system"⟩ key

/-- The ConfigMap `name` of namespace `istio-system` with `key` overwritten by the rewritten
text: what the correction hands to `Update`. -/
def Cluster.rewritten (c : Cluster) (name key : String) (rewrite : String → String) :
    ConfigMap :=
  ConfigMap.set ⟨name, "istio-system", c.configMaps name "istio-system"⟩ key
    (rewrite (c.configText name key))

/-- The calls of the restart that follows a successful write: the pod lookup, then `Get` when a
pod name was found, then `Delete` when the pod was fetched. -/
def restartOps (env : Env) (deploy : String) : List Op :=
  Op.GetDeploymentPod deploy "istio-system" "app" ::
    match env.deploymentPod deploy "istio-system" "app" with
    | Except.error _ => []
    | Except.ok podName =>
      Op.Get podName "istio-system" ::
        (if (env.get podName "istio-system").isSome then []
         else [Op.Delete podName "istio-system"])

/-- What the restart makes the correction return: the error of a failed `Delete`, and nothing
(the function goes on) in every other case. -/
def restartResult (env : Env) (deploy : String) : Option Ret :=
  match env.deploymentPod deploy "istio-system" "app" with
  | Except.error _ => none
  | Except.ok podName =>
    if (env.get podName "istio-system").isSome then none
    else
      match env.delete podName "istio-system" with
      | some e => some ⟨Result.empty, some e⟩
      | none => none

/-- The restart after a write does not fail: the pod is not found, or it is found but not
fetched, or it is found, fetched and deleted. The one remaining case is a failed `Delete`. -/
def restartTolerated (env : Env) (deploy : String) : Prop :=
  (∃ e, env.deploymentPod deploy "istio-system" "app" = Except.error e)
    ∨ (∃ podName e, env.deploymentPod deploy "istio-system" "app" = Except.ok podName
        ∧ env.get podName "istio-system" = some e)
    ∨ (∃ podName, env.deploymentPod deploy "istio-system" "app" = Except.ok podName
        ∧ env.get podName "istio-system" = none
        ∧ env.delete podName "istio-system" = none)

/-- A correction meets no failure other than a pod that is not found or not fetched: the read
succeeds and either the text needs no rewrite, or the write succeeds and the restart does not
fail. -/
def correctionPasses (env : Env) (c : Cluster) (name key deploy : String)
    (rewrite : String → String) : Prop :=
  env.effectiveConfigMap name "istio-system" = none
    ∧ (rewrite (c.configText name key) = c.configText name key
      ∨ (env.update (c.rewritten name key rewrite) = none ∧ restartTolerated env deploy))

/-- Lines 144-214 of `addServiceMesh`, what follows the readiness gate: the two corrections in
turn, then the final `return reconcile.Result{}, nil`. -/
def correctConfigs : Prog Ret := do
  let r ← correctKialiConfig
  match r with
  | some r => return r
  | none =>
    let r ← correctInjectorConfig
    match r with
    | some r => return r
    | none => return ⟨Result.empty, none⟩

/-- The creates of one iteration of the loop of lines 96-125. -/
def userOps (id : Nat) : List Op :=
  [Op.Create (Obj.Role ("user" ++ toString id ++ "-jaeger") "istio-system"),
   Op.Create (Obj.RoleBindingUser ("user" ++ toString id ++ "-jaeger") "istio-system"
     ("user" ++ toString id) ("user" ++ toString id ++ "-jaeger") "Role")]

/-- The calls `addServiceMesh` makes up to and including the readiness gate when none of them
fails. -/
def meshPreamble (inst : Workshop) (users : Int) : List Op :=
  [Op.Create (Obj.Subscription "servicemeshoperator" "openshift-operators" "servicemeshoperator"
      inst.Infrastructure.ServiceMesh.ServiceMeshOperatorHub.Channel
      inst.Infrastructure.ServiceMesh.ServiceMeshOperatorHub.ClusterServiceVersion),
   Op.ApproveInstallPlan inst.Infrastructure.ServiceMesh.ServiceMeshOperatorHub.ClusterServiceVersion
      "servicemeshoperator" "openshift-operators",
   Op.Create (Obj.Namespace "istio-system"),
   Op.Create (Obj.ServiceMeshControlPlane "full-install" "istio-system")]
  ++ (userIds users).flatMap userOps
  ++ [Op.Create (Obj.ServiceMeshMemberRoll "default" "istio-system"
        (istioMembers inst.Infrastructure.StagingName users)),
      Op.GetDeploymentStatus "kiali" "istio-system"]

/-- The calls the three operator stages make when none of them fails. -/
def operatorsPreamble (inst : Workshop) : List Op :=
  [Op.Create (Obj.Namespace "openshift-operators-redhat"),
   Op.Create (Obj.Subscription "elasticsearch-operator" "openshift-operators-redhat"
      "elasticsearch-operator" inst.Infrastructure.ServiceMesh.ElasticSearchOperatorHub.Channel
      inst.Infrastructure.ServiceMesh.ElasticSearchOperatorHub.ClusterServiceVersion),
   Op.ApproveInstallPlan
      inst.Infrastructure.ServiceMesh.ElasticSearchOperatorHub.ClusterServiceVersion
      "elasticsearch-operator" "openshift-operators-redhat",
   Op.Create (Obj.Subscription "jaeger-product" "openshift-operators" "jaeger-product"
      inst.Infrastructure.ServiceMesh.JaegerOperatorHub.Channel
      inst.Infrastructure.ServiceMesh.JaegerOperatorHub.ClusterServiceVersion),
   Op.ApproveInstallPlan inst.Infrastructure.ServiceMesh.JaegerOperatorHub.ClusterServiceVersion
      "jaeger-product" "openshift-operators",
   Op.Create (Obj.Subscription "kiali-ossm" "openshift-operators" "kiali-ossm"
      inst.Infrastructure.ServiceMesh.KialiOperatorHub.Channel
      inst.Infrastructure.ServiceMesh.KialiOperatorHub.ClusterServiceVersion),
   Op.ApproveInstallPlan inst.Infrastructure.ServiceMesh.KialiOperatorHub.ClusterServiceVersion
      "kiali-ossm" "openshift-operators"]

/-- The calls of a whole service-mesh cycle in which nothing fails and both texts are already
rewritten: the stages up to the gate, then the two reads. -/
def cleanCycleOps (inst : Workshop) (users : Int) : List Op :=
  operatorsPreamble inst ++ meshPreamble inst users ++
    [Op.GetEffectiveConfigMap "kiali" "istio-system",
     Op.GetEffectiveConfigMap "istio-sidecar-injector" "istio-system"]

/-- The calls `addPipeline` makes when its create does not fail. -/
def pipelineOps (inst : Workshop) : List Op :=
  [Op.Create (Obj.Subscription "openshift-pipelines-operator-rh" "openshift-operators"
      "openshift-pipelines-operator-rh" inst.Infrastructure.Pipeline.OperatorHub.Channel
      inst.Infrastructure.Pipeline.OperatorHub.ClusterServiceVersion),
   Op.ApproveInstallPlan inst.Infrastructure.Pipeline.OperatorHub.ClusterServiceVersion
      "openshift-pipelines-operator-rh" "openshift-operators"]

/-- The function `addServiceMesh`. -/
def addServiceMesh (inst : Workshop) (users : Int) : Prog Ret := do
  let channel := inst.Infrastructure.ServiceMesh.ServiceMeshOperatorHub.Channel
  let clusterserviceversion :=
    inst.Infrastructure.ServiceMesh.ServiceMeshOperatorHub.ClusterServiceVersion
  let subscription := Obj.Subscription "servicemeshoperator" "openshift-operators"
    "servicemeshoperator" channel clusterserviceversion
  let err ← clientCreate subscription
  if createFailed err then
    return ⟨Result.empty, err⟩
  let err ← ApproveInstallPlan clusterserviceversion "servicemeshoperator" "openshift-operators"
  if err.isSome then
    return ⟨Result.empty, err⟩
  let istioSystemNamespace := Obj.Namespace "istio-system"
  let err ← clientCreate istioSystemNamespace
  if createFailed err then
    return ⟨Result.empty, err⟩
  let serviceMeshControlPlaneCR := Obj.ServiceMeshControlPlane "full-install" "istio-system"
  let err ← clientCreate serviceMeshControlPlaneCR
  if createFailed err then
    return ⟨⟨true, Second * 1⟩, err⟩
  let loop ← userLoop inst.Infrastructure.StagingName (userIds users) []
  match loop with
  | Except.error r => return r
  | Except.ok istioMembers =>
    let serviceMeshMemberRollCR := Obj.ServiceMeshMemberRoll "default" "istio-system" istioMembers
    let err ← clientCreate serviceMeshMemberRollCR
    if createFailed err then
      return ⟨Result.empty, err⟩
    let ready ← GetDeploymentStatus "kiali" "istio-system"
    if !ready then
      return ⟨⟨true, Second * 1⟩, none⟩
    correctConfigs

/-- The function `reconcileServiceMesh`; the second component is the document as the call leaves
it in memory. -/
def reconcileServiceMesh (inst : Workshop) (users : Int) : Prog (Ret × Workshop) := do
  let enabledServiceMesh := inst.Infrastructure.ServiceMesh.Enabled
  let enabledServerless := inst.Infrastructure.ServerlessEnabled
  if enabledServiceMesh || enabledServerless then
    let r ← addElasticSearchOperator inst
    if r.err.isSome then
      return (r, inst)
    let r ← addJaegerOperator inst
    if r.err.isSome then
      return (r, inst)
    let r ← addKialiOperator inst
    if r.err.isSome then
      return (r, inst)
    let r ← addServiceMesh inst users
    if r.err.isSome then
      return (r, inst)
    if inst.Status.ServiceMesh ≠ OperatorStatusInstalled then
      let inst : Workshop := ⟨inst.Infrastructure, ⟨OperatorStatusInstalled, inst.Status.Pipeline⟩⟩
      let err ← statusUpdate inst.Status
      if err.isSome then
        return (⟨Result.empty, none⟩, inst)
      return (⟨Result.empty, none⟩, inst)
    return (⟨Result.empty, none⟩, inst)
  return (⟨Result.empty, none⟩, inst)

/-- True of the calls that change the cluster after installation: a ConfigMap `Update`, a pod
`Delete`, a status `Update`. -/
def Op.isWrite : Op → Bool
  | Op.Update _ => true
  | Op.Delete _ _ => true
  | Op.StatusUpdate _ => true
  | _ => false

/-- True of a ConfigMap `Update`. -/
def Op.isUpdate : Op → Bool
  | Op.Update _ => true
  | _ => false

/-- True of a pod `Delete`. -/
def Op.isDelete : Op → Bool
  | Op.Delete _ _ => true
  | _ => false

/-! ## Concrete inputs used in the examples -/

/-- An environment in which every call succeeds and the Kiali deployment is ready. -/
def envAllOk : Env where
  create := fun _ => none
  approveInstallPlan := fun _ _ _ => none
  deploymentStatus := fun _ _ => true
  effectiveConfigMap := fun _ _ => none
  update := fun _ => none
  deploymentPod := fun name _ _ => Except.ok (name ++ "-pod")
  get := fun _ _ => none
  delete := fun _ _ => none
  statusUpdate := fun _ => none

/-- As `envAllOk`, but the Kiali deployment is not ready. -/
def envKialiNotReady : Env := { envAllOk with deploymentStatus := fun _ _ => false }

/-- As `envAllOk`, but no install plan exists yet: `ApproveInstallPlan` answers an error. -/
def envPlanPending : Env :=
  { envAllOk with
    approveInstallPlan := fun _ _ _ =>
      some (GoError.other "InstallPlan Approval: Subscription is not ready yet") }

/-- As `envAllOk`, but the status write fails. -/
def envStatusFails : Env :=
  { envAllOk with statusUpdate := fun _ => some (GoError.other "status update failed") }

/-- As `envAllOk`, but deleting a pod fails. -/
def envDeleteFails : Env :=
  { envAllOk with delete := fun _ _ => some (GoError.other "delete failed") }

/-- As `envAllOk`, but deleting the sidecar-injector pod fails. -/
def envInjectorDeleteFails : Env :=
  { envAllOk with
    delete := fun name _ =>
      if name = "sidecarInjectorWebhook-pod" then some (GoError.other "delete failed")
      else none }

/-- As `envAllOk`, but no Kiali pod is found. -/
def envKialiPodMissing : Env :=
  { envAllOk with
    deploymentPod := fun name _ _ =>
      if name = "kiali" then Except.error (GoError.other "no pod found")
      else Except.ok (name ++ "-pod") }

/-- As `envAllOk`, but every create answers "already exists". -/
def envAlreadyExists : Env :=
  { envAllOk with create := fun _ => some (GoError.alreadyExists "already exists") }

/-- A subscription reference. -/
def hubStable : OperatorHub := ⟨"stable", "v1"⟩

/-- A document with every feature enabled and nothing installed yet. -/
def docEnabled : Workshop :=
  ⟨⟨⟨true, hubStable, hubStable, hubStable, hubStable⟩, false, ⟨true, hubStable⟩, "staging"⟩,
    ⟨"", ""⟩⟩

/-- A document with every feature enabled and both features marked installed. -/
def docInstalled : Workshop :=
  ⟨docEnabled.Infrastructure, ⟨OperatorStatusInstalled, OperatorStatusInstalled⟩⟩

/-- A document with the service-mesh toggle off and the serverless toggle on. -/
def docServerlessOnly : Workshop :=
  ⟨⟨⟨false, hubStable, hubStable, hubStable, hubStable⟩, true, ⟨false, hubStable⟩, "staging"⟩,
    ⟨"", ""⟩⟩

/-- A document with every toggle off. -/
def docDisabled : Workshop :=
  ⟨⟨⟨false, hubStable, hubStable, hubStable, hubStable⟩, false, ⟨false, hubStable⟩, "staging"⟩,
    ⟨"", ""⟩⟩

/-- A cluster in which nothing has been called yet and every ConfigMap is empty. -/
def Cluster.init : Cluster := ⟨fun _ _ => [], []⟩

/-- A cluster whose Kiali and injector ConfigMaps both need the rewrite. -/
def clusterDrifted : Cluster :=
  ⟨fun name _ =>
      if name = "kiali" then [("config.yaml", "foo: 1\napp_label_name: old\nbar: 2")]
      else [("config", "x index .ObjectMeta.Labels \"app\" y")],
    []⟩

/-- A cluster whose Kiali and injector ConfigMaps are already rewritten. -/
def clusterCorrected : Cluster :=
  ⟨fun name _ =>
      if name = "kiali" then
        [("config.yaml", "foo: 1\n  app_label_name: app.kubernetes.io/instance\nbar: 2")]
      else [("config", "x index .ObjectMeta.Labels \"deploymentconfig\" y")],
    []⟩

/-! ### Facts about the text helpers -/

theorem containsChars_iff_infix (pat s : List Char) : containsChars pat s = true ↔ pat <:+: s := by
  induction s with
  | nil =>
    simp only [containsChars, List.isPrefixOf_iff_prefix, List.prefix_nil, List.infix_nil]
  | cons c s ih =>
    simp only [containsChars, Bool.or_eq_true, List.isPrefixOf_iff_prefix, ih, List.infix_cons_iff]

theorem splitLines_ne_nil (s : List Char) : splitLines s ≠ [] := by
  cases s with
  | nil => simp [splitLines]
  | cons c s =>
    simp only [splitLines]
    split
    · simp
    · split <;> simp

theorem joinLines_cons_head (c : Char) (l : List Char) (ls : List (List Char)) :
    joinLines ((c :: l) :: ls) = c :: joinLines (l :: ls) := by
  cases ls <;> simp [joinLines]

theorem joinLines_splitLines (s : List Char) : joinLines (splitLines s) = s := by
  induction s with
  | nil => simp [splitLines, joinLines]
  | cons c s ih =>
    simp only [splitLines]
    split
    · next h =>
      cases hs : splitLines s with
      | nil => exact absurd hs (splitLines_ne_nil s)
      | cons l ls =>
        rw [hs] at ih
        simp [joinLines, ih, h]
    · cases hs : splitLines s with
      | nil => exact absurd hs (splitLines_ne_nil s)
      | cons l ls =>
        rw [hs] at ih
        simp only [joinLines_cons_head, ih]

theorem splitLines_no_newline (s : List Char) : ∀ l ∈ splitLines s, '\n' ∉ l := by
  induction s with
  | nil => simp [splitLines]
  | cons c s ih =>
    simp only [splitLines]
    split
    · intro l hl
      rcases List.mem_cons.1 hl with h | h
      · simp [h]
      · exact ih l h
    · next hc =>
      cases hs : splitLines s with
      | nil => exact absurd hs (splitLines_ne_nil s)
      | cons l0 ls =>
        rw [hs] at ih
        intro l hl
        rcases List.mem_cons.1 hl with h | h
        · subst h
          have h0 := ih l0 (List.mem_cons_self _ _)
          simp only [List.mem_cons, not_or]
          exact ⟨fun e => hc e.symm, h0⟩
        · exact ih l (List.mem_cons_of_mem _ h)

theorem splitLines_of_no_newline (l : List Char) (h : '\n' ∉ l) : splitLines l = [l] := by
  induction l with
  | nil => simp [splitLines]
  | cons c l ih =>
    simp only [List.mem_cons, not_or] at h
    have hc : ¬ c = '\n' := fun e => h.1 e.symm
    simp [splitLines, hc, ih h.2]

theorem splitLines_append_newline (l s : List Char) (h : '\n' ∉ l) :
    splitLines (l ++ '\n' :: s) = l :: splitLines s := by
  induction l with
  | nil => simp [splitLines]
  | cons c l ih =>
    simp only [List.mem_cons, not_or] at h
    have hc : ¬ c = '\n' := fun e => h.1 e.symm
    simp [splitLines, hc, ih h.2]

theorem splitLines_joinLines (ls : List (List Char)) (hne : ls ≠ [])
    (h : ∀ l ∈ ls, '\n' ∉ l) : splitLines (joinLines ls) = ls := by
  induction ls with
  | nil => exact absurd rfl hne
  | cons l ls ih =>
    cases ls with
    | nil => simpa [joinLines] using splitLines_of_no_newline l (h l (List.mem_cons_self _ _))
    | cons l' ls =>
      simp only [joinLines]
      rw [splitLines_append_newline l _ (h l (List.mem_cons_self _ _))]
      rw [ih (by simp) (fun x hx => h x (List.mem_cons_of_mem _ hx))]

theorem replaceFirstLine_length (pat line : List Char) (ls : List (List Char)) :
    (replaceFirstLine pat line ls).length = ls.length := by
  induction ls with
  | nil => rfl
  | cons l ls ih =>
    simp only [replaceFirstLine]
    split <;> simp [ih]

theorem replaceFirstLine_eq_set (pat line : List Char) (ls : List (List Char)) :
    replaceFirstLine pat line ls = ls.set (ls.findIdx (containsChars pat)) line := by
  induction ls with
  | nil => rfl
  | cons l ls ih =>
    simp only [replaceFirstLine, List.findIdx_cons]
    cases h : containsChars pat l <;> simp [ih]

theorem replaceFirstLine_of_none (pat line : List Char) (ls : List (List Char))
    (h : ls.any (containsChars pat) = false) : replaceFirstLine pat line ls = ls := by
  induction ls with
  | nil => rfl
  | cons l ls ih =>
    simp only [List.any_cons, Bool.or_eq_false_iff] at h
    simp [replaceFirstLine, h.1, ih h.2]

theorem replaceFirstLine_idem (pat line : List Char) (hline : containsChars pat line = true)
    (ls : List (List Char)) :
    replaceFirstLine pat line (replaceFirstLine pat line ls) = replaceFirstLine pat line ls := by
  induction ls with
  | nil => rfl
  | cons l ls ih =>
    simp only [replaceFirstLine]
    cases h : containsChars pat l
    · simp [replaceFirstLine, h, ih]
    · simp [replaceFirstLine, hline]

theorem replaceFirstLine_no_newline (pat line : List Char) (hline : '\n' ∉ line)
    (ls : List (List Char)) (h : ∀ l ∈ ls, '\n' ∉ l) :
    ∀ l ∈ replaceFirstLine pat line ls, '\n' ∉ l := by
  induction ls with
  | nil => simp [replaceFirstLine]
  | cons l0 ls ih =>
    simp only [replaceFirstLine]
    split
    · intro l hl
      rcases List.mem_cons.1 hl with e | e
      · rw [e]; exact hline
      · exact h l (List.mem_cons_of_mem _ e)
    · intro l hl
      rcases List.mem_cons.1 hl with e | e
      · rw [e]; exact h l0 (List.mem_cons_self _ _)
      · exact ih (fun x hx => h x (List.mem_cons_of_mem _ hx)) l e

theorem replaceFirstLine_ne_nil (pat line : List Char) (ls : List (List Char)) (h : ls ≠ []) :
    replaceFirstLine pat line ls ≠ [] := by
  intro e
  have := replaceFirstLine_length pat line ls
  rw [e] at this
  exact h (List.length_eq_zero.1 this.symm)

/-- The lines of the rewritten Kiali configuration. -/
theorem splitLines_kialiRewrite (config : String) :
    splitLines (kialiRewrite config).data =
      replaceFirstLine appLabelMarker.data appLabelLine.data (splitLines config.data) := by
  unfold kialiRewrite
  apply splitLines_joinLines
  · exact replaceFirstLine_ne_nil _ _ _ (splitLines_ne_nil _)
  · exact replaceFirstLine_no_newline _ _ (by decide) _ (splitLines_no_newline _)

theorem kialiRewrite_idem (config : String) :
    kialiRewrite (kialiRewrite config) = kialiRewrite config := by
  have h := splitLines_kialiRewrite config
  show String.mk _ = kialiRewrite config
  rw [h, replaceFirstLine_idem _ _ (by decide)]
  rfl

theorem compatChars_of_prefix_append (a b u : List Char) (h : a <+: b ++ u) :
    compatChars a b = true := by
  simp only [compatChars, Bool.or_eq_true, List.isPrefixOf_iff_prefix]
  exact List.prefix_or_prefix_of_prefix h (List.prefix_append b u)

theorem replaceAllChars_skip (old new : List Char) (k : Nat) (s : List Char) :
    replaceAllChars old new k s = replaceAllChars old new 0 (s.drop k) := by
  induction s generalizing k with
  | nil => cases k <;> simp [replaceAllChars]
  | cons c s ih =>
    cases k with
    | zero => simp
    | succ k => simp only [replaceAllChars, List.drop_succ_cons]; exact ih k

theorem replaceAllChars_match (old new : List Char) (hold : old ≠ []) (t : List Char) :
    replaceAllChars old new 0 (old ++ t) = new ++ replaceAllChars old new 0 t := by
  cases old with
  | nil => exact absurd rfl hold
  | cons o os =>
    have hp : (o :: os).isPrefixOf (o :: (os ++ t)) = true := by
      rw [List.isPrefixOf_iff_prefix]; exact List.prefix_append (o :: os) t
    rw [List.cons_append, replaceAllChars, if_pos hp, replaceAllChars_skip]
    simp

theorem replaceAllChars_nomatch (old new : List Char) (c : Char) (s : List Char)
    (h : ¬ old <+: c :: s) :
    replaceAllChars old new 0 (c :: s) = c :: replaceAllChars old new 0 s := by
  have hp : (old.isPrefixOf (c :: s)) = false := by
    rw [Bool.eq_false_iff]; intro e; exact h (List.isPrefixOf_iff_prefix.1 e)
  simp [replaceAllChars, hp]

theorem replaceAllChars_of_not_infix (old new : List Char) (s : List Char)
    (h : ¬ old <:+: s) : replaceAllChars old new 0 s = s := by
  induction s with
  | nil => rfl
  | cons c s ih =>
    have h1 : ¬ old <+: c :: s := fun e => h e.isInfix
    have h2 : ¬ old <:+: s := fun e => h (List.infix_cons e)
    rw [replaceAllChars_nomatch _ _ _ _ h1, ih h2]

theorem infix_append_cases (a b u : List Char) (h : a <:+: b ++ u) :
    (∃ k, k < b.length ∧ a <+: b.drop k ++ u) ∨ a <:+: u := by
  induction b with
  | nil => right; simpa using h
  | cons c b ih =>
    rw [List.cons_append, List.infix_cons_iff] at h
    rcases h with h | h
    · left; exact ⟨0, by simp, by simpa using h⟩
    · rcases ih h with ⟨k, hk, hp⟩ | h'
      · left; exact ⟨k + 1, by simpa using hk, by simpa using hp⟩
      · right; exact h'

theorem prefix_replaceAllChars (old new : List Char) (hold : old ≠ []) (s : List Char) :
    ∀ p : List Char, p <+: replaceAllChars old new 0 s →
      p <+: s ∨ ∃ k, k < p.length ∧ compatChars (p.drop k) new = true := by
  induction s with
  | nil => intro p hp; left; simpa [replaceAllChars] using hp
  | cons c s ih =>
    intro p hp
    by_cases hm : old <+: c :: s
    · obtain ⟨t, ht⟩ := hm
      rw [← ht, replaceAllChars_match _ _ hold] at hp
      cases p with
      | nil => left; exact List.nil_prefix
      | cons a p =>
        right
        exact ⟨0, by simp, compatChars_of_prefix_append _ _ _ hp⟩
    · rw [replaceAllChars_nomatch _ _ _ _ hm] at hp
      cases p with
      | nil => left; exact List.nil_prefix
      | cons a p =>
        rw [List.cons_prefix_cons] at hp
        rcases ih p hp.2 with h | ⟨k, hk, hc⟩
        · left; rw [List.cons_prefix_cons]; exact ⟨hp.1, h⟩
        · right; exact ⟨k + 1, by simpa using hk, by simpa using hc⟩

theorem not_infix_replaceAllChars (old new : List Char) (hold : old ≠ [])
    (h1 : ∀ k, k < new.length → compatChars old (new.drop k) = false)
    (h2 : ∀ k, k < old.length → 0 < k → compatChars (old.drop k) new = false) :
    ∀ (n : Nat) (s : List Char), s.length ≤ n → ¬ old <:+: replaceAllChars old new 0 s := by
  intro n
  induction n with
  | zero =>
    intro s hs hin
    have : s = [] := List.length_eq_zero.1 (Nat.le_zero.1 hs)
    subst this
    simp only [replaceAllChars, List.infix_nil] at hin
    exact hold hin
  | succ n ih =>
    intro s hs hin
    cases s with
    | nil =>
      simp only [replaceAllChars, List.infix_nil] at hin
      exact hold hin
    | cons c s =>
      by_cases hm : old <+: c :: s
      · obtain ⟨t, ht⟩ := hm
        have hlen : t.length ≤ n := by
          have := congrArg List.length ht
          simp only [List.length_append, List.length_cons] at this hs
          have hpos : 0 < old.length := List.length_pos.2 hold
          omega
        rw [← ht, replaceAllChars_match _ _ hold] at hin
        rcases infix_append_cases _ _ _ hin with ⟨k, hk, hp⟩ | h
        · have := compatChars_of_prefix_append _ _ _ hp
          rw [h1 k hk] at this
          exact Bool.false_ne_true this
        · exact ih t hlen h
      · rw [replaceAllChars_nomatch _ _ _ _ hm, List.infix_cons_iff] at hin
        rcases hin with hp | h
        · cases old with
          | nil => exact hold rfl
          | cons o os =>
            rw [List.cons_prefix_cons] at hp
            rcases prefix_replaceAllChars (o :: os) new hold s os hp.2 with h | ⟨k, hk, hc⟩
            · exact hm (by rw [List.cons_prefix_cons]; exact ⟨hp.1, h⟩)
            · have := h2 (k + 1) (by simpa using hk) (by omega)
              rw [List.drop_succ_cons, hc] at this
              exact Bool.false_ne_true this.symm
        · exact ih s (by simpa using hs) h

theorem replaceAllChars_idem (old new : List Char) (hold : old ≠ [])
    (h1 : ∀ k, k < new.length → compatChars old (new.drop k) = false)
    (h2 : ∀ k, k < old.length → 0 < k → compatChars (old.drop k) new = false)
    (s : List Char) :
    replaceAllChars old new 0 (replaceAllChars old new 0 s) = replaceAllChars old new 0 s :=
  replaceAllChars_of_not_infix _ _ _ (not_infix_replaceAllChars old new hold h1 h2 _ s le_rfl)

theorem injectorRewrite_idem (config : String) :
    injectorRewrite (injectorRewrite config) = injectorRewrite config := by
  unfold injectorRewrite
  rw [replaceAllChars_idem _ _ (by decide) (by decide) (by decide)]

/-! ### The decimal rendering of a counter is injective -/

theorem digitChar_value (k : Nat) (h : k < 10) : (Nat.digitChar k).toNat - 48 = k := by
  interval_cases k <;> decide

theorem digitsValue_append_singleton (pre : List Char) (d : Char) :
    digitsValue (pre ++ [d]) = 10 * digitsValue pre + (d.toNat - 48) := by
  simp [digitsValue, List.foldl_append]

theorem toDigitsCore_spec (fuel : Nat) :
    ∀ (n : Nat) (ds : List Char), n < fuel →
      ∃ pre, Nat.toDigitsCore 10 fuel n ds = pre ++ ds ∧ digitsValue pre = n := by
  induction fuel with
  | zero => intro n ds h; exact absurd h (Nat.not_lt_zero n)
  | succ fuel ih =>
    intro n ds h
    by_cases h0 : n / 10 = 0
    · refine ⟨[Nat.digitChar (n % 10)], ?_, ?_⟩
      · simp [Nat.toDigitsCore, h0]
      · have hn : n < 10 := by omega
        simp [digitsValue, digitChar_value (n % 10) (Nat.mod_lt n (by decide))]
        omega
    · have hlt : n / 10 < fuel := by omega
      obtain ⟨pre, hpre, hval⟩ := ih (n / 10) (Nat.digitChar (n % 10) :: ds) hlt
      refine ⟨pre ++ [Nat.digitChar (n % 10)], ?_, ?_⟩
      · simp [Nat.toDigitsCore, h0, hpre]
      · rw [digitsValue_append_singleton, hval,
          digitChar_value (n % 10) (Nat.mod_lt n (by decide))]
        omega

theorem digitsValue_toDigits (n : Nat) : digitsValue (Nat.toDigits 10 n) = n := by
  obtain ⟨pre, hpre, hval⟩ := toDigitsCore_spec (n + 1) n [] (Nat.lt_succ_self n)
  unfold Nat.toDigits
  rw [hpre, List.append_nil, hval]

theorem toString_nat_injective (a b : Nat) (h : toString a = toString b) : a = b := by
  have h' : Nat.toDigits 10 a = Nat.toDigits 10 b := by
    have := congrArg String.data h
    simpa [toString, Nat.repr, List.asString] using this
  rw [← digitsValue_toDigits a, ← digitsValue_toDigits b, h']

theorem prefixed_name_injective (p : String) :
    Function.Injective (fun id : Nat => p ++ toString id) := by
  intro a b h
  apply toString_nat_injective
  have hd := congrArg String.data h
  simp only [String.data_append] at hd
  exact String.ext (List.append_cancel_left hd)


/-! ### Running a computation -/

theorem Prog.bind_apply {α β : Type} (x : Prog α) (f : α → Prog β) (env : Env) (c : Cluster) :
    (x >>= f) env c = f (x env c).1 env (x env c).2 := rfl

theorem Prog.pure_apply {α : Type} (a : α) (env : Env) (c : Cluster) :
    (pure a : Prog α) env c = (a, c) := rfl

theorem reconcilePipeline_disabled (inst : Workshop) (env : Env) (c : Cluster)
    (h : inst.Infrastructure.Pipeline.Enabled = false) :
    reconcilePipeline inst env c = ((⟨Result.empty, none⟩, inst), c) := by
  simp [reconcilePipeline, h, Prog.pure_apply, Prog.bind_apply]

theorem reconcilePipeline_enabled (inst : Workshop) (env : Env) (c : Cluster)
    (h : inst.Infrastructure.Pipeline.Enabled = true) :
    reconcilePipeline inst env c =
      if (addPipeline inst env c).1.err.isSome then
        (((addPipeline inst env c).1, inst), (addPipeline inst env c).2)
      else if inst.Status.Pipeline ≠ OperatorStatusInstalled then
        ((⟨Result.empty, env.statusUpdate ⟨inst.Status.ServiceMesh, OperatorStatusInstalled⟩⟩,
            ⟨inst.Infrastructure, ⟨inst.Status.ServiceMesh, OperatorStatusInstalled⟩⟩),
          (addPipeline inst env c).2.log
            (Op.StatusUpdate ⟨inst.Status.ServiceMesh, OperatorStatusInstalled⟩))
      else ((⟨Result.empty, none⟩, inst), (addPipeline inst env c).2) := by
  by_cases h1 : (addPipeline inst env c).1.err.isSome = true
  · simp [reconcilePipeline, h, h1, Prog.pure_apply, Prog.bind_apply, ite_apply]
  · by_cases h2 : inst.Status.Pipeline = OperatorStatusInstalled
    · simp [reconcilePipeline, h, h1, h2, Prog.pure_apply, Prog.bind_apply, ite_apply]
    · cases h3 : env.statusUpdate ⟨inst.Status.ServiceMesh, OperatorStatusInstalled⟩ <;>
        simp [reconcilePipeline, h, h1, h2, h3, Prog.pure_apply, Prog.bind_apply, ite_apply,
          statusUpdate]

theorem reconcileServiceMesh_disabled (inst : Workshop) (users : Int) (env : Env) (c : Cluster)
    (h1 : inst.Infrastructure.ServiceMesh.Enabled = false)
    (h2 : inst.Infrastructure.ServerlessEnabled = false) :
    reconcileServiceMesh inst users env c = ((⟨Result.empty, none⟩, inst), c) := by
  simp [reconcileServiceMesh, h1, h2, Prog.pure_apply, Prog.bind_apply]

theorem reconcileServiceMesh_enabled (inst : Workshop) (users : Int) (env : Env) (c : Cluster)
    (h : (inst.Infrastructure.ServiceMesh.Enabled || inst.Infrastructure.ServerlessEnabled)
      = true) :
    reconcileServiceMesh inst users env c =
      if (addElasticSearchOperator inst env c).1.err.isSome then
        (((addElasticSearchOperator inst env c).1, inst), (addElasticSearchOperator inst env c).2)
      else if (addJaegerOperator inst env (addElasticSearchOperator inst env c).2).1.err.isSome then
        (((addJaegerOperator inst env (addElasticSearchOperator inst env c).2).1, inst),
          (addJaegerOperator inst env (addElasticSearchOperator inst env c).2).2)
      else if (addKialiOperator inst env
          (addJaegerOperator inst env (addElasticSearchOperator inst env c).2).2).1.err.isSome then
        (((addKialiOperator inst env
            (addJaegerOperator inst env (addElasticSearchOperator inst env c).2).2).1, inst),
          (addKialiOperator inst env
            (addJaegerOperator inst env (addElasticSearchOperator inst env c).2).2).2)
      else if (addServiceMesh inst users env (addKialiOperator inst env
          (addJaegerOperator inst env (addElasticSearchOperator inst env c).2).2).2).1.err.isSome
      then
        (((addServiceMesh inst users env (addKialiOperator inst env
            (addJaegerOperator inst env (addElasticSearchOperator inst env c).2).2).2).1, inst),
          (addServiceMesh inst users env (addKialiOperator inst env
            (addJaegerOperator inst env (addElasticSearchOperator inst env c).2).2).2).2)
      else if inst.Status.ServiceMesh ≠ OperatorStatusInstalled then
        ((⟨Result.empty, none⟩,
            ⟨inst.Infrastructure, ⟨OperatorStatusInstalled, inst.Status.Pipeline⟩⟩),
          (addServiceMesh inst users env (addKialiOperator inst env
            (addJaegerOperator inst env (addElasticSearchOperator inst env c).2).2).2).2.log
            (Op.StatusUpdate ⟨OperatorStatusInstalled, inst.Status.Pipeline⟩))
      else ((⟨Result.empty, none⟩, inst),
          (addServiceMesh inst users env (addKialiOperator inst env
            (addJaegerOperator inst env (addElasticSearchOperator inst env c).2).2).2).2) := by
  have h' : (inst.Infrastructure.ServiceMesh.Enabled = true ∨
      inst.Infrastructure.ServerlessEnabled = true) := by simpa using h
  generalize he1 : addElasticSearchOperator inst env c = r1
  by_cases h1 : r1.1.err.isSome = true
  · simp [reconcileServiceMesh, h', he1, h1, Prog.pure_apply, Prog.bind_apply, ite_apply]
  generalize he2 : addJaegerOperator inst env r1.2 = r2
  by_cases h2 : r2.1.err.isSome = true
  · simp [reconcileServiceMesh, h', he1, he2, h1, h2, Prog.pure_apply, Prog.bind_apply, ite_apply]
  generalize he3 : addKialiOperator inst env r2.2 = r3
  by_cases h3 : r3.1.err.isSome = true
  · simp [reconcileServiceMesh, h', he1, he2, he3, h1, h2, h3, Prog.pure_apply, Prog.bind_apply,
      ite_apply]
  generalize he4 : addServiceMesh inst users env r3.2 = r4
  by_cases h4 : r4.1.err.isSome = true
  · simp [reconcileServiceMesh, h', he1, he2, he3, he4, h1, h2, h3, h4, Prog.pure_apply,
      Prog.bind_apply, ite_apply]
  by_cases h5 : inst.Status.ServiceMesh = OperatorStatusInstalled
  · simp [reconcileServiceMesh, h', he1, he2, he3, he4, h1, h2, h3, h4, h5, Prog.pure_apply,
      Prog.bind_apply, ite_apply]
  · cases h6 : env.statusUpdate ⟨OperatorStatusInstalled, inst.Status.Pipeline⟩ <;>
      simp [reconcileServiceMesh, h', he1, he2, he3, he4, h1, h2, h3, h4, h5, h6,
        Prog.pure_apply, Prog.bind_apply, ite_apply, statusUpdate]

/-! ### The four subscription stages -/

theorem addPipeline_eq (inst : Workshop) (env : Env) (c : Cluster) :
    addPipeline inst env c =
      if createFailed (env.create (Obj.Subscription "openshift-pipelines-operator-rh"
          "openshift-operators" "openshift-pipelines-operator-rh"
          inst.Infrastructure.Pipeline.OperatorHub.Channel
          inst.Infrastructure.Pipeline.OperatorHub.ClusterServiceVersion)) then
        (⟨Result.empty, env.create (Obj.Subscription "openshift-pipelines-operator-rh"
          "openshift-operators" "openshift-pipelines-operator-rh"
          inst.Infrastructure.Pipeline.OperatorHub.Channel
          inst.Infrastructure.Pipeline.OperatorHub.ClusterServiceVersion)⟩,
         c.log (Op.Create (Obj.Subscription "openshift-pipelines-operator-rh"
          "openshift-operators" "openshift-pipelines-operator-rh"
          inst.Infrastructure.Pipeline.OperatorHub.Channel
          inst.Infrastructure.Pipeline.OperatorHub.ClusterServiceVersion)))
      else
        (⟨Result.empty, env.approveInstallPlan
            inst.Infrastructure.Pipeline.OperatorHub.ClusterServiceVersion
            "openshift-pipelines-operator-rh" "openshift-operators"⟩,
         (c.log (Op.Create (Obj.Subscription "openshift-pipelines-operator-rh"
          "openshift-operators" "openshift-pipelines-operator-rh"
          inst.Infrastructure.Pipeline.OperatorHub.Channel
          inst.Infrastructure.Pipeline.OperatorHub.ClusterServiceVersion))).log
          (Op.ApproveInstallPlan inst.Infrastructure.Pipeline.OperatorHub.ClusterServiceVersion
            "openshift-pipelines-operator-rh" "openshift-operators")) := by
  simp only [addPipeline, Prog.bind_apply, clientCreate]
  split
  · simp [Prog.pure_apply]
  · simp only [Prog.bind_apply, Prog.pure_apply, ApproveInstallPlan]
    cases h : env.approveInstallPlan inst.Infrastructure.Pipeline.OperatorHub.ClusterServiceVersion
      "openshift-pipelines-operator-rh" "openshift-operators" <;>
      simp [Prog.pure_apply, Prog.bind_apply, ite_apply]

theorem Cluster.log_log_trace (c : Cluster) (a b : Op) :
    (c.log a).log b = ⟨c.configMaps, c.trace ++ [a, b]⟩ := by
  simp [Cluster.log]

theorem addPipeline_result (inst : Workshop) (env : Env) (c : Cluster) :
    (addPipeline inst env c).1.result = Result.empty := by
  rw [addPipeline_eq]; split <;> rfl

theorem addElasticSearchOperator_result (inst : Workshop) (env : Env) (c : Cluster) :
    (addElasticSearchOperator inst env c).1.result = Result.empty := by
  simp only [addElasticSearchOperator, Prog.bind_apply, clientCreate, ApproveInstallPlan]
  split
  · simp [Prog.pure_apply]
  · simp only [Prog.bind_apply, Prog.pure_apply]
    split
    · simp [Prog.pure_apply]
    · simp only [Prog.bind_apply, Prog.pure_apply]
      split <;> simp [Prog.pure_apply, Prog.bind_apply]

theorem addJaegerOperator_result (inst : Workshop) (env : Env) (c : Cluster) :
    (addJaegerOperator inst env c).1.result = Result.empty := by
  simp only [addJaegerOperator, Prog.bind_apply, clientCreate, ApproveInstallPlan]
  split
  · simp [Prog.pure_apply]
  · simp only [Prog.bind_apply, Prog.pure_apply]
    split <;> simp [Prog.pure_apply, Prog.bind_apply]

theorem addKialiOperator_result (inst : Workshop) (env : Env) (c : Cluster) :
    (addKialiOperator inst env c).1.result = Result.empty := by
  simp only [addKialiOperator, Prog.bind_apply, clientCreate, ApproveInstallPlan]
  split
  · simp [Prog.pure_apply]
  · simp only [Prog.bind_apply, Prog.pure_apply]
    split <;> simp [Prog.pure_apply, Prog.bind_apply]

theorem addElasticSearchOperator_of_created (inst : Workshop) (env : Env) (c : Cluster)
    (h1 : createFailed (env.create (Obj.Namespace "openshift-operators-redhat")) = false)
    (h2 : createFailed (env.create (Obj.Subscription "elasticsearch-operator"
      "openshift-operators-redhat" "elasticsearch-operator"
      inst.Infrastructure.ServiceMesh.ElasticSearchOperatorHub.Channel
      inst.Infrastructure.ServiceMesh.ElasticSearchOperatorHub.ClusterServiceVersion)) = false) :
    addElasticSearchOperator inst env c =
      (⟨Result.empty, env.approveInstallPlan
          inst.Infrastructure.ServiceMesh.ElasticSearchOperatorHub.ClusterServiceVersion
          "elasticsearch-operator" "openshift-operators-redhat"⟩,
        ⟨c.configMaps, c.trace ++
          [Op.Create (Obj.Namespace "openshift-operators-redhat"),
           Op.Create (Obj.Subscription "elasticsearch-operator" "openshift-operators-redhat"
            "elasticsearch-operator"
            inst.Infrastructure.ServiceMesh.ElasticSearchOperatorHub.Channel
            inst.Infrastructure.ServiceMesh.ElasticSearchOperatorHub.ClusterServiceVersion),
           Op.ApproveInstallPlan
            inst.Infrastructure.ServiceMesh.ElasticSearchOperatorHub.ClusterServiceVersion
            "elasticsearch-operator" "openshift-operators-redhat"]⟩) := by
  cases h : env.approveInstallPlan
      inst.Infrastructure.ServiceMesh.ElasticSearchOperatorHub.ClusterServiceVersion
      "elasticsearch-operator" "openshift-operators-redhat" <;>
    simp [addElasticSearchOperator, Prog.bind_apply, Prog.pure_apply, clientCreate,
      ApproveInstallPlan, h1, h2, h, ite_apply, Cluster.log]

theorem addJaegerOperator_of_created (inst : Workshop) (env : Env) (c : Cluster)
    (h1 : createFailed (env.create (Obj.Subscription "jaeger-product" "openshift-operators"
      "jaeger-product" inst.Infrastructure.ServiceMesh.JaegerOperatorHub.Channel
      inst.Infrastructure.ServiceMesh.JaegerOperatorHub.ClusterServiceVersion)) = false) :
    addJaegerOperator inst env c =
      (⟨Result.empty, env.approveInstallPlan
          inst.Infrastructure.ServiceMesh.JaegerOperatorHub.ClusterServiceVersion
          "jaeger-product" "openshift-operators"⟩,
        ⟨c.configMaps, c.trace ++
          [Op.Create (Obj.Subscription "jaeger-product" "openshift-operators" "jaeger-product"
            inst.Infrastructure.ServiceMesh.JaegerOperatorHub.Channel
            inst.Infrastructure.ServiceMesh.JaegerOperatorHub.ClusterServiceVersion),
           Op.ApproveInstallPlan
            inst.Infrastructure.ServiceMesh.JaegerOperatorHub.ClusterServiceVersion
            "jaeger-product" "openshift-operators"]⟩) := by
  cases h : env.approveInstallPlan
      inst.Infrastructure.ServiceMesh.JaegerOperatorHub.ClusterServiceVersion
      "jaeger-product" "openshift-operators" <;>
    simp [addJaegerOperator, Prog.bind_apply, Prog.pure_apply, clientCreate,
      ApproveInstallPlan, h1, h, ite_apply, Cluster.log]

theorem addKialiOperator_of_created (inst : Workshop) (env : Env) (c : Cluster)
    (h1 : createFailed (env.create (Obj.Subscription "kiali-ossm" "openshift-operators"
      "kiali-ossm" inst.Infrastructure.ServiceMesh.KialiOperatorHub.Channel
      inst.Infrastructure.ServiceMesh.KialiOperatorHub.ClusterServiceVersion)) = false) :
    addKialiOperator inst env c =
      (⟨Result.empty, env.approveInstallPlan
          inst.Infrastructure.ServiceMesh.KialiOperatorHub.ClusterServiceVersion
          "kiali-ossm" "openshift-operators"⟩,
        ⟨c.configMaps, c.trace ++
          [Op.Create (Obj.Subscription "kiali-ossm" "openshift-operators" "kiali-ossm"
            inst.Infrastructure.ServiceMesh.KialiOperatorHub.Channel
            inst.Infrastructure.ServiceMesh.KialiOperatorHub.ClusterServiceVersion),
           Op.ApproveInstallPlan
            inst.Infrastructure.ServiceMesh.KialiOperatorHub.ClusterServiceVersion
            "kiali-ossm" "openshift-operators"]⟩) := by
  cases h : env.approveInstallPlan
      inst.Infrastructure.ServiceMesh.KialiOperatorHub.ClusterServiceVersion
      "kiali-ossm" "openshift-operators" <;>
    simp [addKialiOperator, Prog.bind_apply, Prog.pure_apply, clientCreate,
      ApproveInstallPlan, h1, h, ite_apply, Cluster.log]

theorem addPipeline_of_created (inst : Workshop) (env : Env) (c : Cluster)
    (h1 : createFailed (env.create (Obj.Subscription "openshift-pipelines-operator-rh"
      "openshift-operators" "openshift-pipelines-operator-rh"
      inst.Infrastructure.Pipeline.OperatorHub.Channel
      inst.Infrastructure.Pipeline.OperatorHub.ClusterServiceVersion)) = false) :
    addPipeline inst env c =
      (⟨Result.empty, env.approveInstallPlan
          inst.Infrastructure.Pipeline.OperatorHub.ClusterServiceVersion
          "openshift-pipelines-operator-rh" "openshift-operators"⟩,
        ⟨c.configMaps, c.trace ++
          [Op.Create (Obj.Subscription "openshift-pipelines-operator-rh" "openshift-operators"
            "openshift-pipelines-operator-rh" inst.Infrastructure.Pipeline.OperatorHub.Channel
            inst.Infrastructure.Pipeline.OperatorHub.ClusterServiceVersion),
           Op.ApproveInstallPlan inst.Infrastructure.Pipeline.OperatorHub.ClusterServiceVersion
            "openshift-pipelines-operator-rh" "openshift-operators"]⟩) := by
  rw [addPipeline_eq, h1]
  simp [Cluster.log]

/-- When the subscription create is tolerated and the approval answers an error, `addServiceMesh`
stops there and returns that error with the empty result. -/
theorem addServiceMesh_of_pending (inst : Workshop) (users : Int) (env : Env) (c : Cluster)
    (e : GoError)
    (h1 : createFailed (env.create (Obj.Subscription "servicemeshoperator" "openshift-operators"
      "servicemeshoperator" inst.Infrastructure.ServiceMesh.ServiceMeshOperatorHub.Channel
      inst.Infrastructure.ServiceMesh.ServiceMeshOperatorHub.ClusterServiceVersion)) = false)
    (h2 : env.approveInstallPlan
      inst.Infrastructure.ServiceMesh.ServiceMeshOperatorHub.ClusterServiceVersion
      "servicemeshoperator" "openshift-operators" = some e) :
    addServiceMesh inst users env c =
      (⟨Result.empty, some e⟩,
        ⟨c.configMaps, c.trace ++
          [Op.Create (Obj.Subscription "servicemeshoperator" "openshift-operators"
            "servicemeshoperator" inst.Infrastructure.ServiceMesh.ServiceMeshOperatorHub.Channel
            inst.Infrastructure.ServiceMesh.ServiceMeshOperatorHub.ClusterServiceVersion),
           Op.ApproveInstallPlan
            inst.Infrastructure.ServiceMesh.ServiceMeshOperatorHub.ClusterServiceVersion
            "servicemeshoperator" "openshift-operators"]⟩) := by
  simp [addServiceMesh, Prog.bind_apply, Prog.pure_apply, clientCreate,
    ApproveInstallPlan, h1, h2, ite_apply, Cluster.log]

/-! ### The user loop and the preamble of `addServiceMesh` -/

theorem clientCreate_apply (o : Obj) (env : Env) (c : Cluster) :
    clientCreate o env c = (env.create o, c.log (Op.Create o)) := rfl

theorem ApproveInstallPlan_apply (csv name ns : String) (env : Env) (c : Cluster) :
    ApproveInstallPlan csv name ns env c =
      (env.approveInstallPlan csv name ns, c.log (Op.ApproveInstallPlan csv name ns)) := rfl

theorem GetDeploymentStatus_apply (name ns : String) (env : Env) (c : Cluster) :
    GetDeploymentStatus name ns env c =
      (env.deploymentStatus name ns, c.log (Op.GetDeploymentStatus name ns)) := rfl

theorem foldl_append_singleton (f : Nat → String) (ids : List Nat) (acc : List String) :
    ids.foldl (fun members id => members ++ [f id]) acc = acc ++ ids.map f := by
  induction ids generalizing acc with
  | nil => simp
  | cons id ids ih => simp [ih]

theorem istioMembers_eq_map (stagingName : String) (users : Int) :
    istioMembers stagingName users =
      (userIds users).map (fun id => stagingName ++ toString id) := by
  unfold istioMembers
  rw [foldl_append_singleton (fun id => stagingName ++ toString id)]
  simp

/-- The loop either returns early or hands on the members computed so far followed by one name
per remaining counter value. -/
theorem userLoop_result (stagingName : String) (ids : List Nat) (ms : List String)
    (env : Env) (c : Cluster) :
    (userLoop stagingName ids ms env c).1 =
        Except.ok (ms ++ ids.map (fun id => stagingName ++ toString id)) ∨
      ∃ r, (userLoop stagingName ids ms env c).1 = Except.error r := by
  induction ids generalizing ms c with
  | nil => left; simp [userLoop, Prog.pure_apply]
  | cons id ids ih =>
    simp only [userLoop, Prog.bind_apply, clientCreate_apply, ite_apply, Prog.pure_apply]
    split
    · right; exact ⟨_, rfl⟩
    · simp only [Prog.bind_apply, clientCreate_apply, ite_apply, Prog.pure_apply]
      split
      · right; exact ⟨_, rfl⟩
      · simp only [Prog.bind_apply, clientCreate_apply, ite_apply, Prog.pure_apply]
        rcases ih (ms ++ [stagingName ++ toString id])
          ((c.log (Op.Create (Obj.Role ("user" ++ toString id ++ "-jaeger") "istio-system"))).log
            (Op.Create (Obj.RoleBindingUser ("user" ++ toString id ++ "-jaeger") "istio-system"
              ("user" ++ toString id) ("user" ++ toString id ++ "-jaeger") "Role")))
          with h | h
        · left; rw [h]; simp
        · right; exact h

theorem userLoop_of_created (stagingName : String) (ids : List Nat) (ms : List String)
    (env : Env) (c : Cluster) (hc : ∀ o, createFailed (env.create o) = false) :
    userLoop stagingName ids ms env c =
      (Except.ok (ms ++ ids.map (fun id => stagingName ++ toString id)),
        ⟨c.configMaps, c.trace ++ ids.flatMap userOps⟩) := by
  induction ids generalizing ms c with
  | nil => simp [userLoop, Prog.pure_apply]
  | cons id ids ih =>
    simp only [userLoop, Prog.bind_apply, Prog.pure_apply, clientCreate_apply, ite_apply, hc,
      Bool.false_eq_true, if_false]
    rw [ih]
    simp [Cluster.log, userOps]

theorem addServiceMesh_of_created (inst : Workshop) (users : Int) (env : Env) (c : Cluster)
    (hc : ∀ o, createFailed (env.create o) = false)
    (ha : env.approveInstallPlan
      inst.Infrastructure.ServiceMesh.ServiceMeshOperatorHub.ClusterServiceVersion
      "servicemeshoperator" "openshift-operators" = none) :
    addServiceMesh inst users env c =
      if env.deploymentStatus "kiali" "istio-system" then
        correctConfigs env ⟨c.configMaps, c.trace ++ meshPreamble inst users⟩
      else
        (⟨⟨true, Second * 1⟩, none⟩, ⟨c.configMaps, c.trace ++ meshPreamble inst users⟩) := by
  simp only [addServiceMesh, Prog.bind_apply, Prog.pure_apply, clientCreate_apply, ite_apply, hc,
    ApproveInstallPlan_apply, ha, Bool.false_eq_true, if_false, Option.isSome_none,
    userLoop_of_created _ _ _ _ _ hc, GetDeploymentStatus_apply]
  cases hr : env.deploymentStatus "kiali" "istio-system" <;>
    simp [Prog.bind_apply, Prog.pure_apply, Cluster.log, meshPreamble, istioMembers_eq_map]

/-! ### The configuration corrections -/

theorem correctKialiConfig_eq_correctConfig :
    correctKialiConfig = correctConfig "kiali" "config.yaml" "kiali" kialiRewrite := rfl

theorem correctInjectorConfig_eq_correctConfig :
    correctInjectorConfig =
      correctConfig "istio-sidecar-injector" "config" "sidecarInjectorWebhook" injectorRewrite :=
  rfl

theorem GetEffectiveConfigMap_apply (name ns : String) (env : Env) (c : Cluster) :
    GetEffectiveConfigMap name ns env c =
      (match env.effectiveConfigMap name ns with
        | some e => Except.error e
        | none => Except.ok ⟨name, ns, c.configMaps name ns⟩,
       c.log (Op.GetEffectiveConfigMap name ns)) := rfl

theorem clientUpdate_apply (cm : ConfigMap) (env : Env) (c : Cluster) :
    clientUpdate cm env c =
      match env.update cm with
      | some e => (some e, c.log (Op.Update cm))
      | none => (none, (c.log (Op.Update cm)).store cm) := rfl

theorem GetDeploymentPod_apply (name ns label : String) (env : Env) (c : Cluster) :
    GetDeploymentPod name ns label env c =
      (env.deploymentPod name ns label, c.log (Op.GetDeploymentPod name ns label)) := rfl

theorem clientGet_apply (name ns : String) (env : Env) (c : Cluster) :
    clientGet name ns env c = (env.get name ns, c.log (Op.Get name ns)) := rfl

theorem clientDelete_apply (name ns : String) (env : Env) (c : Cluster) :
    clientDelete name ns env c = (env.delete name ns, c.log (Op.Delete name ns)) := rfl

theorem ConfigMap.get_set (cm : ConfigMap) (key value : String) :
    (cm.set key value).get key = value := by
  simp [ConfigMap.get, ConfigMap.set, List.lookup]

/-- The read fails: the correction returns the error and makes no other call. -/
theorem correctConfig_of_read_error (name key deploy : String) (rewrite : String → String)
    (env : Env) (c : Cluster) (e : GoError)
    (hr : env.effectiveConfigMap name "istio-system" = some e) :
    correctConfig name key deploy rewrite env c =
      (some ⟨Result.empty, some e⟩, c.log (Op.GetEffectiveConfigMap name "istio-system")) := by
  simp [correctConfig, Prog.bind_apply, Prog.pure_apply, GetEffectiveConfigMap_apply, hr]

/-- The text is already a fixed point of the rewrite: one read, nothing else. -/
theorem correctConfig_of_clean (name key deploy : String) (rewrite : String → String)
    (env : Env) (c : Cluster)
    (hr : env.effectiveConfigMap name "istio-system" = none)
    (hx : rewrite (c.configText name key) = c.configText name key) :
    correctConfig name key deploy rewrite env c =
      (none, c.log (Op.GetEffectiveConfigMap name "istio-system")) := by
  unfold Cluster.configText at hx
  simp [correctConfig, Prog.bind_apply, Prog.pure_apply, GetEffectiveConfigMap_apply, hr, hx]

/-- The write fails: the correction returns the error and the stored text is untouched. -/
theorem correctConfig_of_update_error (name key deploy : String) (rewrite : String → String)
    (env : Env) (c : Cluster) (e : GoError)
    (hr : env.effectiveConfigMap name "istio-system" = none)
    (hx : rewrite (c.configText name key) ≠ c.configText name key)
    (hu : env.update (c.rewritten name key rewrite) = some e) :
    correctConfig name key deploy rewrite env c =
      (some ⟨Result.empty, some e⟩,
        ⟨c.configMaps, c.trace ++ [Op.GetEffectiveConfigMap name "istio-system",
          Op.Update (c.rewritten name key rewrite)]⟩) := by
  unfold Cluster.rewritten at hu
  unfold Cluster.configText at hx hu
  have hx' : ¬ ConfigMap.get ⟨name, "istio-system", c.configMaps name "istio-system"⟩ key =
      rewrite (ConfigMap.get ⟨name, "istio-system", c.configMaps name "istio-system"⟩ key) :=
    fun h => hx h.symm
  simp [correctConfig, Prog.bind_apply, Prog.pure_apply, GetEffectiveConfigMap_apply, hr, hx',
    clientUpdate_apply, Cluster.log, hu, Cluster.rewritten, Cluster.configText, ite_apply]

/-- The text needs the rewrite and the write succeeds: the rewritten ConfigMap is stored and the
restart is attempted. -/
theorem correctConfig_of_updated (name key deploy : String) (rewrite : String → String)
    (env : Env) (c : Cluster)
    (hr : env.effectiveConfigMap name "istio-system" = none)
    (hx : rewrite (c.configText name key) ≠ c.configText name key)
    (hu : env.update (c.rewritten name key rewrite) = none) :
    correctConfig name key deploy rewrite env c =
      (restartResult env deploy,
        ⟨fun n s => if n = name ∧ s = "istio-system" then (c.rewritten name key rewrite).Data
            else c.configMaps n s,
          c.trace ++ [Op.GetEffectiveConfigMap name "istio-system",
            Op.Update (c.rewritten name key rewrite)] ++ restartOps env deploy⟩) := by
  unfold Cluster.rewritten at hu
  unfold Cluster.configText at hx hu
  have hx' : ¬ ConfigMap.get ⟨name, "istio-system", c.configMaps name "istio-system"⟩ key =
      rewrite (ConfigMap.get ⟨name, "istio-system", c.configMaps name "istio-system"⟩ key) :=
    fun h => hx h.symm
  simp only [correctConfig, Prog.bind_apply, Prog.pure_apply, GetEffectiveConfigMap_apply, hr,
    ne_eq, hx', not_false_eq_true, if_true, clientUpdate_apply, hu, Option.isSome_none,
    Bool.false_eq_true, if_false, GetDeploymentPod_apply, restartResult, restartOps,
    Cluster.rewritten, Cluster.configText]
  cases hp : env.deploymentPod deploy "istio-system" "app" with
  | error e => simp [Prog.pure_apply, Cluster.log, Cluster.store, ConfigMap.set]
  | ok podName =>
    simp only [Prog.bind_apply, clientGet_apply]
    cases hg : env.get podName "istio-system" with
    | some e => simp [Prog.pure_apply, Cluster.log, Cluster.store, ConfigMap.set]
    | none =>
      cases hd : env.delete podName "istio-system" <;>
        simp [Prog.pure_apply, Prog.bind_apply, Cluster.log, Cluster.store, ConfigMap.set,
          clientDelete_apply, hd]

theorem countP_isUpdate_restartOps (env : Env) (deploy : String) :
    (restartOps env deploy).countP Op.isUpdate = 0 := by
  unfold restartOps
  cases env.deploymentPod deploy "istio-system" "app" with
  | error e => simp [Op.isUpdate]
  | ok podName => by_cases h : (env.get podName "istio-system").isSome <;> simp [Op.isUpdate, h]

theorem countP_isDelete_restartOps (env : Env) (deploy : String) :
    (restartOps env deploy).countP Op.isDelete ≤ 1 := by
  unfold restartOps
  cases env.deploymentPod deploy "istio-system" "app" with
  | error e => simp [Op.isDelete]
  | ok podName => by_cases h : (env.get podName "istio-system").isSome <;> simp [Op.isDelete, h]

/-- After a successful write the stored text is the rewritten one. -/
theorem configText_after_update (name key deploy : String) (rewrite : String → String)
    (env : Env) (c : Cluster)
    (hr : env.effectiveConfigMap name "istio-system" = none)
    (hx : rewrite (c.configText name key) ≠ c.configText name key)
    (hu : env.update (c.rewritten name key rewrite) = none) :
    (correctConfig name key deploy rewrite env c).2.configText name key =
      rewrite (c.configText name key) := by
  rw [correctConfig_of_updated name key deploy rewrite env c hr hx hu]
  simp [Cluster.configText, Cluster.rewritten, ConfigMap.get, ConfigMap.set, List.lookup]

theorem correctConfigs_eq (env : Env) (c : Cluster) :
    correctConfigs env c =
      match (correctKialiConfig env c).1 with
      | some r => (r, (correctKialiConfig env c).2)
      | none =>
        match (correctInjectorConfig env (correctKialiConfig env c).2).1 with
        | some r => (r, (correctInjectorConfig env (correctKialiConfig env c).2).2)
        | none => (⟨Result.empty, none⟩, (correctInjectorConfig env (correctKialiConfig env c).2).2)
    := by
  simp only [correctConfigs, Prog.bind_apply]
  cases h1 : (correctKialiConfig env c).1 with
  | some r => simp [Prog.pure_apply]
  | none =>
    simp only [Prog.bind_apply]
    cases h2 : (correctInjectorConfig env (correctKialiConfig env c).2).1 <;>
      simp [Prog.pure_apply]

/-- Both texts are already fixed points of their rewrites: two reads, no write, and the
function completes. -/
theorem correctConfigs_of_clean (env : Env) (c : Cluster)
    (hr1 : env.effectiveConfigMap "kiali" "istio-system" = none)
    (hr2 : env.effectiveConfigMap "istio-sidecar-injector" "istio-system" = none)
    (hx : kialiRewrite (c.configText "kiali" "config.yaml") = c.configText "kiali" "config.yaml")
    (hy : injectorRewrite (c.configText "istio-sidecar-injector" "config") =
      c.configText "istio-sidecar-injector" "config") :
    correctConfigs env c =
      (⟨Result.empty, none⟩,
        ⟨c.configMaps, c.trace ++ [Op.GetEffectiveConfigMap "kiali" "istio-system",
          Op.GetEffectiveConfigMap "istio-sidecar-injector" "istio-system"]⟩) := by
  rw [correctConfigs_eq, correctKialiConfig_eq_correctConfig,
    correctInjectorConfig_eq_correctConfig, correctConfig_of_clean _ _ _ _ env c hr1 hx]
  simp only []
  rw [correctConfig_of_clean _ _ _ _ env _ hr2 (by simpa [Cluster.configText, Cluster.log] using hy)]
  simp [Cluster.log]

/-- The orchestrator when no create fails and every install plan is approved: the gate decides
between the corrections and the requeue result, and only an error stops the status write. -/
theorem reconcileServiceMesh_of_created (inst : Workshop) (users : Int) (env : Env) (c : Cluster)
    (hen : (inst.Infrastructure.ServiceMesh.Enabled || inst.Infrastructure.ServerlessEnabled)
      = true)
    (hc : ∀ o, createFailed (env.create o) = false)
    (ha : ∀ csv name ns, env.approveInstallPlan csv name ns = none) :
    reconcileServiceMesh inst users env c =
      if ((if env.deploymentStatus "kiali" "istio-system" then
            correctConfigs env
              ⟨c.configMaps, c.trace ++ operatorsPreamble inst ++ meshPreamble inst users⟩
          else ((⟨⟨true, Second * 1⟩, none⟩ : Ret),
            (⟨c.configMaps, c.trace ++ operatorsPreamble inst ++ meshPreamble inst users⟩
              : Cluster))).1.err.isSome) then
        (((if env.deploymentStatus "kiali" "istio-system" then
            correctConfigs env
              ⟨c.configMaps, c.trace ++ operatorsPreamble inst ++ meshPreamble inst users⟩
          else ((⟨⟨true, Second * 1⟩, none⟩ : Ret),
            (⟨c.configMaps, c.trace ++ operatorsPreamble inst ++ meshPreamble inst users⟩
              : Cluster))).1, inst),
         (if env.deploymentStatus "kiali" "istio-system" then
            correctConfigs env
              ⟨c.configMaps, c.trace ++ operatorsPreamble inst ++ meshPreamble inst users⟩
          else ((⟨⟨true, Second * 1⟩, none⟩ : Ret),
            (⟨c.configMaps, c.trace ++ operatorsPreamble inst ++ meshPreamble inst users⟩
              : Cluster))).2)
      else if inst.Status.ServiceMesh ≠ OperatorStatusInstalled then
        ((⟨Result.empty, none⟩,
            ⟨inst.Infrastructure, ⟨OperatorStatusInstalled, inst.Status.Pipeline⟩⟩),
         (if env.deploymentStatus "kiali" "istio-system" then
            correctConfigs env
              ⟨c.configMaps, c.trace ++ operatorsPreamble inst ++ meshPreamble inst users⟩
          else ((⟨⟨true, Second * 1⟩, none⟩ : Ret),
            (⟨c.configMaps, c.trace ++ operatorsPreamble inst ++ meshPreamble inst users⟩
              : Cluster))).2.log
            (Op.StatusUpdate ⟨OperatorStatusInstalled, inst.Status.Pipeline⟩))
      else
        ((⟨Result.empty, none⟩, inst),
         (if env.deploymentStatus "kiali" "istio-system" then
            correctConfigs env
              ⟨c.configMaps, c.trace ++ operatorsPreamble inst ++ meshPreamble inst users⟩
          else ((⟨⟨true, Second * 1⟩, none⟩ : Ret),
            (⟨c.configMaps, c.trace ++ operatorsPreamble inst ++ meshPreamble inst users⟩
              : Cluster))).2) := by
  rw [reconcileServiceMesh_enabled inst users env c hen,
    addElasticSearchOperator_of_created inst env c (hc _) (hc _)]
  simp only [ha, Option.isSome_none, Bool.false_eq_true, if_false]
  rw [addJaegerOperator_of_created inst env _ (hc _)]
  simp only [ha, Option.isSome_none, Bool.false_eq_true, if_false]
  rw [addKialiOperator_of_created inst env _ (hc _)]
  simp only [ha, Option.isSome_none, Bool.false_eq_true, if_false]
  rw [addServiceMesh_of_created inst users env _ hc (ha _ _ _)]
  simp only [List.append_assoc, operatorsPreamble, List.cons_append, List.nil_append]

/-! ### Whole cycles in which the stages succeed -/

theorem reconcilePipeline_of_approved (inst : Workshop) (env : Env) (c : Cluster)
    (hp : inst.Infrastructure.Pipeline.Enabled = true)
    (hc : ∀ o, createFailed (env.create o) = false)
    (ha : ∀ csv name ns, env.approveInstallPlan csv name ns = none) :
    reconcilePipeline inst env c =
      if inst.Status.Pipeline ≠ OperatorStatusInstalled then
        ((⟨Result.empty, env.statusUpdate ⟨inst.Status.ServiceMesh, OperatorStatusInstalled⟩⟩,
            ⟨inst.Infrastructure, ⟨inst.Status.ServiceMesh, OperatorStatusInstalled⟩⟩),
          ⟨c.configMaps, c.trace ++ pipelineOps inst ++
            [Op.StatusUpdate ⟨inst.Status.ServiceMesh, OperatorStatusInstalled⟩]⟩)
      else ((⟨Result.empty, none⟩, inst), ⟨c.configMaps, c.trace ++ pipelineOps inst⟩) := by
  rw [reconcilePipeline_enabled inst env c hp, addPipeline_of_created inst env c (hc _)]
  simp [ha, Cluster.log, pipelineOps]

theorem reconcileServiceMesh_of_clean (inst : Workshop) (users : Int) (env : Env) (c : Cluster)
    (hen : (inst.Infrastructure.ServiceMesh.Enabled || inst.Infrastructure.ServerlessEnabled)
      = true)
    (hc : ∀ o, createFailed (env.create o) = false)
    (ha : ∀ csv name ns, env.approveInstallPlan csv name ns = none)
    (hk : env.deploymentStatus "kiali" "istio-system" = true)
    (hr1 : env.effectiveConfigMap "kiali" "istio-system" = none)
    (hr2 : env.effectiveConfigMap "istio-sidecar-injector" "istio-system" = none)
    (hx : kialiRewrite (c.configText "kiali" "config.yaml") = c.configText "kiali" "config.yaml")
    (hy : injectorRewrite (c.configText "istio-sidecar-injector" "config") =
      c.configText "istio-sidecar-injector" "config") :
    reconcileServiceMesh inst users env c =
      if inst.Status.ServiceMesh ≠ OperatorStatusInstalled then
        ((⟨Result.empty, none⟩,
            ⟨inst.Infrastructure, ⟨OperatorStatusInstalled, inst.Status.Pipeline⟩⟩),
          ⟨c.configMaps, c.trace ++ cleanCycleOps inst users ++
            [Op.StatusUpdate ⟨OperatorStatusInstalled, inst.Status.Pipeline⟩]⟩)
      else ((⟨Result.empty, none⟩, inst), ⟨c.configMaps, c.trace ++ cleanCycleOps inst users⟩) := by
  rw [reconcileServiceMesh_of_created inst users env c hen hc ha]
  simp only [hk, if_true]
  rw [correctConfigs_of_clean env _ hr1 hr2 (by simpa [Cluster.configText] using hx)
    (by simpa [Cluster.configText] using hy)]
  simp [Cluster.log, cleanCycleOps]

theorem countP_isWrite_userOps (ids : List Nat) :
    (ids.flatMap userOps).countP Op.isWrite = 0 := by
  induction ids with
  | nil => simp
  | cons id ids ih => simp [List.flatMap_cons, userOps, Op.isWrite, ih]

theorem countP_isWrite_cleanCycleOps (inst : Workshop) (users : Int) :
    (cleanCycleOps inst users).countP Op.isWrite = 0 := by
  simp [cleanCycleOps, operatorsPreamble, meshPreamble, Op.isWrite, countP_isWrite_userOps]

theorem countP_isWrite_pipelineOps (inst : Workshop) :
    (pipelineOps inst).countP Op.isWrite = 0 := by
  simp [pipelineOps, Op.isWrite]

theorem createFailed_alreadyExists (msg : String) :
    createFailed (some (GoError.alreadyExists msg)) = false := rfl

/-! ### Two corrections in a row, and the corrections that fail -/

theorem configText_log (c : Cluster) (op : Op) (name key : String) :
    (c.log op).configText name key = c.configText name key := rfl

/-- A correction whose read succeeds and whose write, if any, succeeds, followed by a second
one on what the first left: the first writes once exactly when the text is not yet a fixed point
of the rewrite and deletes at most one pod in that case only; the second only reads. -/
theorem correctConfig_twice (name key deploy : String) (rewrite : String → String)
    (hidem : ∀ x, rewrite (rewrite x) = rewrite x) (env1 env2 : Env) (c : Cluster)
    (hr1 : env1.effectiveConfigMap name "istio-system" = none)
    (hr2 : env2.effectiveConfigMap name "istio-system" = none)
    (hu : env1.update (c.rewritten name key rewrite) = none) :
    (correctConfig name key deploy rewrite env1 c).2.trace.countP Op.isUpdate =
        c.trace.countP Op.isUpdate +
          (if rewrite (c.configText name key) = c.configText name key then 0 else 1)
      ∧ (correctConfig name key deploy rewrite env1 c).2.trace.countP Op.isDelete ≤
        c.trace.countP Op.isDelete +
          (if rewrite (c.configText name key) = c.configText name key then 0 else 1)
      ∧ correctConfig name key deploy rewrite env2
          (correctConfig name key deploy rewrite env1 c).2 =
        (none, (correctConfig name key deploy rewrite env1 c).2.log
          (Op.GetEffectiveConfigMap name "istio-system")) := by
  by_cases hx : rewrite (c.configText name key) = c.configText name key
  · rw [correctConfig_of_clean name key deploy rewrite env1 c hr1 hx]
    refine ⟨?_, ?_, ?_⟩
    · simp [Cluster.log, List.countP_append, Op.isUpdate, hx]
    · simp [Cluster.log, List.countP_append, Op.isDelete, hx]
    · exact correctConfig_of_clean name key deploy rewrite env2 _ hr2
        (by rw [configText_log]; exact hx)
  · have h2 := configText_after_update name key deploy rewrite env1 c hr1 hx hu
    refine ⟨?_, ?_, ?_⟩
    · rw [correctConfig_of_updated name key deploy rewrite env1 c hr1 hx hu]
      simp [List.countP_append, Op.isUpdate, hx, countP_isUpdate_restartOps]
    · rw [correctConfig_of_updated name key deploy rewrite env1 c hr1 hx hu]
      have := countP_isDelete_restartOps env1 deploy
      simp [List.countP_append, Op.isDelete, hx]
      exact this
    · exact correctConfig_of_clean name key deploy rewrite env2 _ hr2
        (by rw [h2]; exact hidem _)

theorem correctConfigs_of_kiali_error (env : Env) (c : Cluster) (r : Ret)
    (h : (correctKialiConfig env c).1 = some r) :
    correctConfigs env c = (r, (correctKialiConfig env c).2) := by
  rw [correctConfigs_eq, h]

theorem restartResult_of_delete_error (env : Env) (deploy podName : String) (e : GoError)
    (hp : env.deploymentPod deploy "istio-system" "app" = Except.ok podName)
    (hg : env.get podName "istio-system" = none)
    (hd : env.delete podName "istio-system" = some e) :
    restartResult env deploy = some ⟨Result.empty, some e⟩ := by
  simp [restartResult, hp, hg, hd]

theorem restartResult_of_lookup_error (env : Env) (deploy : String)
    (h : (∃ e, env.deploymentPod deploy "istio-system" "app" = Except.error e) ∨
      ∃ podName e, env.deploymentPod deploy "istio-system" "app" = Except.ok podName ∧
        env.get podName "istio-system" = some e) :
    restartResult env deploy = none := by
  rcases h with ⟨e, h⟩ | ⟨podName, e, h1, h2⟩
  · simp [restartResult, h]
  · simp [restartResult, h1, h2]

/-- The cluster the Kiali correction leaves after a successful write. -/
theorem correctKialiConfig_of_updated (env : Env) (c : Cluster)
    (hr : env.effectiveConfigMap "kiali" "istio-system" = none)
    (hx : kialiRewrite (c.configText "kiali" "config.yaml") ≠ c.configText "kiali" "config.yaml")
    (hu : env.update (c.rewritten "kiali" "config.yaml" kialiRewrite) = none) :
    (correctKialiConfig env c).1 = restartResult env "kiali"
      ∧ (correctKialiConfig env c).2.configText "kiali" "config.yaml" =
          kialiRewrite (c.configText "kiali" "config.yaml")
      ∧ (correctKialiConfig env c).2.configText "istio-sidecar-injector" "config" =
          c.configText "istio-sidecar-injector" "config"
      ∧ (correctKialiConfig env c).2.trace.countP Op.isWrite ≤ c.trace.countP Op.isWrite + 2
      ∧ ∀ st, Op.StatusUpdate st ∈ (correctKialiConfig env c).2.trace →
          Op.StatusUpdate st ∈ c.trace := by
  rw [correctKialiConfig_eq_correctConfig,
    correctConfig_of_updated "kiali" "config.yaml" "kiali" kialiRewrite env c hr hx hu]
  refine ⟨rfl, ?_, ?_, ?_, ?_⟩
  · simp [Cluster.configText, Cluster.rewritten, ConfigMap.get, ConfigMap.set, List.lookup]
  · simp [Cluster.configText]
  · unfold restartOps
    cases env.deploymentPod "kiali" "istio-system" "app" with
    | error e => simp [List.countP_append, Op.isWrite]
    | ok podName =>
      by_cases h : (env.get podName "istio-system").isSome <;>
        simp [List.countP_append, Op.isWrite, h]
  · intro st
    unfold restartOps
    cases env.deploymentPod "kiali" "istio-system" "app" with
    | error e => simp
    | ok podName =>
      by_cases h : (env.get podName "istio-system").isSome <;> simp [h]

theorem correctConfigs_of_read_error (env : Env) (c : Cluster) (e : GoError)
    (hr : env.effectiveConfigMap "kiali" "istio-system" = some e) :
    correctConfigs env c =
      (⟨Result.empty, some e⟩, c.log (Op.GetEffectiveConfigMap "kiali" "istio-system")) := by
  have h := correctConfig_of_read_error "kiali" "config.yaml" "kiali" kialiRewrite env c e hr
  rw [correctConfigs_of_kiali_error env c ⟨Result.empty, some e⟩
    (by rw [correctKialiConfig_eq_correctConfig, h]),
    correctKialiConfig_eq_correctConfig, h]

theorem correctConfigs_of_update_error (env : Env) (c : Cluster) (e : GoError)
    (hr : env.effectiveConfigMap "kiali" "istio-system" = none)
    (hx : kialiRewrite (c.configText "kiali" "config.yaml") ≠ c.configText "kiali" "config.yaml")
    (hu : env.update (c.rewritten "kiali" "config.yaml" kialiRewrite) = some e) :
    correctConfigs env c =
      (⟨Result.empty, some e⟩,
        ⟨c.configMaps, c.trace ++ [Op.GetEffectiveConfigMap "kiali" "istio-system",
          Op.Update (c.rewritten "kiali" "config.yaml" kialiRewrite)]⟩) := by
  have h := correctConfig_of_update_error "kiali" "config.yaml" "kiali" kialiRewrite env c e
    hr hx hu
  rw [correctConfigs_of_kiali_error env c ⟨Result.empty, some e⟩
    (by rw [correctKialiConfig_eq_correctConfig, h]),
    correctKialiConfig_eq_correctConfig, h]

theorem correctConfigs_of_restart_error (env : Env) (c : Cluster) (r : Ret)
    (hr : env.effectiveConfigMap "kiali" "istio-system" = none)
    (hx : kialiRewrite (c.configText "kiali" "config.yaml") ≠ c.configText "kiali" "config.yaml")
    (hu : env.update (c.rewritten "kiali" "config.yaml" kialiRewrite) = none)
    (hres : restartResult env "kiali" = some r) :
    correctConfigs env c = (r, (correctKialiConfig env c).2) :=
  correctConfigs_of_kiali_error env c r
    (by rw [(correctKialiConfig_of_updated env c hr hx hu).1, hres])

theorem correctConfigs_of_restart_skipped (env : Env) (c : Cluster)
    (hr : env.effectiveConfigMap "kiali" "istio-system" = none)
    (hx : kialiRewrite (c.configText "kiali" "config.yaml") ≠ c.configText "kiali" "config.yaml")
    (hu : env.update (c.rewritten "kiali" "config.yaml" kialiRewrite) = none)
    (hres : restartResult env "kiali" = none)
    (hr2 : env.effectiveConfigMap "istio-sidecar-injector" "istio-system" = none)
    (hy : injectorRewrite (c.configText "istio-sidecar-injector" "config") =
      c.configText "istio-sidecar-injector" "config") :
    correctConfigs env c =
      (⟨Result.empty, none⟩, (correctKialiConfig env c).2.log
        (Op.GetEffectiveConfigMap "istio-sidecar-injector" "istio-system")) := by
  have hk := correctKialiConfig_of_updated env c hr hx hu
  have h1 : (correctKialiConfig env c).1 = none := by rw [hk.1, hres]
  have h2 := correctConfig_of_clean "istio-sidecar-injector" "config" "sidecarInjectorWebhook"
    injectorRewrite env (correctKialiConfig env c).2 hr2 (by rw [hk.2.2.1]; exact hy)
  rw [correctConfigs_eq, h1]
  simp only []
  rw [correctInjectorConfig_eq_correctConfig, h2]

/-! ### Both corrections, whatever the first one did -/

theorem restartResult_of_tolerated (env : Env) (deploy : String)
    (h : restartTolerated env deploy) : restartResult env deploy = none := by
  rcases h with ⟨e, h⟩ | ⟨podName, e, h1, h2⟩ | ⟨podName, h1, h2, h3⟩
  · simp [restartResult, h]
  · simp [restartResult, h1, h2]
  · simp [restartResult, h1, h2, h3]

/-- A correction never touches the ConfigMap of another name. -/
theorem correctConfig_configMaps_other (name key deploy : String) (rewrite : String → String)
    (env : Env) (c : Cluster) (other : String) (hne : other ≠ name) :
    (correctConfig name key deploy rewrite env c).2.configMaps other "istio-system" =
      c.configMaps other "istio-system" := by
  cases hr : env.effectiveConfigMap name "istio-system" with
  | some e => rw [correctConfig_of_read_error name key deploy rewrite env c e hr]; rfl
  | none =>
    by_cases hx : rewrite (c.configText name key) = c.configText name key
    · rw [correctConfig_of_clean name key deploy rewrite env c hr hx]; rfl
    · cases hu : env.update (c.rewritten name key rewrite) with
      | some e => rw [correctConfig_of_update_error name key deploy rewrite env c e hr hx hu]
      | none =>
        rw [correctConfig_of_updated name key deploy rewrite env c hr hx hu]
        simp [hne]

theorem configText_congr (c d : Cluster) (name key : String)
    (h : d.configMaps name "istio-system" = c.configMaps name "istio-system") :
    d.configText name key = c.configText name key := by
  simp [Cluster.configText, h]

theorem rewritten_congr (c d : Cluster) (name key : String) (rewrite : String → String)
    (h : d.configMaps name "istio-system" = c.configMaps name "istio-system") :
    d.rewritten name key rewrite = c.rewritten name key rewrite := by
  simp [Cluster.rewritten, Cluster.configText, h]

/-- A correction that passes lets the function go on and leaves the rewritten text stored. -/
theorem correctConfig_of_passes (name key deploy : String) (rewrite : String → String)
    (env : Env) (c : Cluster) (h : correctionPasses env c name key deploy rewrite) :
    (correctConfig name key deploy rewrite env c).1 = none
      ∧ (correctConfig name key deploy rewrite env c).2.configText name key =
          rewrite (c.configText name key) := by
  obtain ⟨hr, hclean | ⟨hu, ht⟩⟩ := h
  · rw [correctConfig_of_clean name key deploy rewrite env c hr hclean]
    exact ⟨rfl, by rw [configText_log, hclean]⟩
  · by_cases hx : rewrite (c.configText name key) = c.configText name key
    · rw [correctConfig_of_clean name key deploy rewrite env c hr hx]
      exact ⟨rfl, by rw [configText_log, hx]⟩
    · refine ⟨?_, configText_after_update name key deploy rewrite env c hr hx hu⟩
      rw [correctConfig_of_updated name key deploy rewrite env c hr hx hu]
      exact restartResult_of_tolerated env deploy ht

/-- A correction that fails: what it returns and what text it leaves stored. -/
theorem correctConfig_of_delete_error (name key deploy : String) (rewrite : String → String)
    (env : Env) (c : Cluster) (e : GoError)
    (hr : env.effectiveConfigMap name "istio-system" = none)
    (hx : rewrite (c.configText name key) ≠ c.configText name key)
    (hu : env.update (c.rewritten name key rewrite) = none)
    (hd : ∃ podName, env.deploymentPod deploy "istio-system" "app" = Except.ok podName
      ∧ env.get podName "istio-system" = none ∧ env.delete podName "istio-system" = some e) :
    (correctConfig name key deploy rewrite env c).1 = some ⟨Result.empty, some e⟩
      ∧ (correctConfig name key deploy rewrite env c).2.configText name key =
          rewrite (c.configText name key) := by
  obtain ⟨podName, hp, hg, hdel⟩ := hd
  refine ⟨?_, configText_after_update name key deploy rewrite env c hr hx hu⟩
  rw [correctConfig_of_updated name key deploy rewrite env c hr hx hu]
  exact restartResult_of_delete_error env deploy podName e hp hg hdel

/-- The two corrections in turn when the Kiali one passes: the result is the injector's, and
the Kiali text stays rewritten whatever the injector correction does. -/
theorem correctConfigs_of_kiali_passes (env : Env) (c : Cluster)
    (hk : correctionPasses env c "kiali" "config.yaml" "kiali" kialiRewrite) :
    correctConfigs env c =
        (match (correctInjectorConfig env (correctKialiConfig env c).2).1 with
          | some r => r
          | none => ⟨Result.empty, none⟩,
         (correctInjectorConfig env (correctKialiConfig env c).2).2)
      ∧ (correctConfigs env c).2.configText "kiali" "config.yaml" =
          kialiRewrite (c.configText "kiali" "config.yaml")
      ∧ (correctKialiConfig env c).2.configMaps "istio-sidecar-injector" "istio-system" =
          c.configMaps "istio-sidecar-injector" "istio-system" := by
  have hp := correctConfig_of_passes "kiali" "config.yaml" "kiali" kialiRewrite env c hk
  rw [← correctKialiConfig_eq_correctConfig] at hp
  have heq : correctConfigs env c =
      (match (correctInjectorConfig env (correctKialiConfig env c).2).1 with
        | some r => r
        | none => ⟨Result.empty, none⟩,
       (correctInjectorConfig env (correctKialiConfig env c).2).2) := by
    rw [correctConfigs_eq, hp.1]
    simp only []
    cases (correctInjectorConfig env (correctKialiConfig env c).2).1 <;> rfl
  have hother := correctConfig_configMaps_other "kiali" "config.yaml" "kiali" kialiRewrite env c
    "istio-sidecar-injector" (by decide)
  rw [← correctKialiConfig_eq_correctConfig] at hother
  refine ⟨heq, ?_, hother⟩
  rw [heq]
  simp only []
  rw [correctInjectorConfig_eq_correctConfig,
    configText_congr _ _ "kiali" "config.yaml"
      (correctConfig_configMaps_other "istio-sidecar-injector" "config"
        "sidecarInjectorWebhook" injectorRewrite env (correctKialiConfig env c).2 "kiali"
        (by decide))]
  exact hp.2

/-- The Kiali correction passes and the injector correction fails with `e` (its read, its write,
or the `Delete` of its pod): the error is returned and the Kiali text stays rewritten. -/
theorem correctConfigs_of_injector_error (env : Env) (c : Cluster) (e : GoError)
    (hk : correctionPasses env c "kiali" "config.yaml" "kiali" kialiRewrite)
    (hi : env.effectiveConfigMap "istio-sidecar-injector" "istio-system" = some e
      ∨ (env.effectiveConfigMap "istio-sidecar-injector" "istio-system" = none
        ∧ injectorRewrite (c.configText "istio-sidecar-injector" "config") ≠
            c.configText "istio-sidecar-injector" "config"
        ∧ (env.update (c.rewritten "istio-sidecar-injector" "config" injectorRewrite) = some e
          ∨ (env.update (c.rewritten "istio-sidecar-injector" "config" injectorRewrite) = none
            ∧ ∃ podName,
              env.deploymentPod "sidecarInjectorWebhook" "istio-system" "app" = Except.ok podName
              ∧ env.get podName "istio-system" = none
              ∧ env.delete podName "istio-system" = some e)))) :
    (correctConfigs env c).1 = ⟨Result.empty, some e⟩
      ∧ (correctConfigs env c).2.configText "kiali" "config.yaml" =
          kialiRewrite (c.configText "kiali" "config.yaml") := by
  obtain ⟨heq, htext, hother⟩ := correctConfigs_of_kiali_passes env c hk
  refine ⟨?_, htext⟩
  have ht := configText_congr c (correctKialiConfig env c).2 "istio-sidecar-injector" "config"
    hother
  have hw := rewritten_congr c (correctKialiConfig env c).2 "istio-sidecar-injector" "config"
    injectorRewrite hother
  rw [heq, correctInjectorConfig_eq_correctConfig]
  rcases hi with hr | ⟨hr, hx, hu | ⟨hu, hd⟩⟩
  · rw [correctConfig_of_read_error _ _ _ _ env _ e hr]
  · rw [correctConfig_of_update_error _ _ _ _ env _ e hr (by rw [ht]; exact hx)
      (by rw [hw]; exact hu)]
  · rw [(correctConfig_of_delete_error _ _ _ _ env _ e hr (by rw [ht]; exact hx)
      (by rw [hw]; exact hu) hd).1]

/-- After a failed `Delete` of the injector pod the injector text stays rewritten too. -/
theorem correctConfigs_of_injector_delete_error (env : Env) (c : Cluster) (e : GoError)
    (hk : correctionPasses env c "kiali" "config.yaml" "kiali" kialiRewrite)
    (hr : env.effectiveConfigMap "istio-sidecar-injector" "istio-system" = none)
    (hx : injectorRewrite (c.configText "istio-sidecar-injector" "config") ≠
      c.configText "istio-sidecar-injector" "config")
    (hu : env.update (c.rewritten "istio-sidecar-injector" "config" injectorRewrite) = none)
    (hd : ∃ podName,
      env.deploymentPod "sidecarInjectorWebhook" "istio-system" "app" = Except.ok podName
      ∧ env.get podName "istio-system" = none
      ∧ env.delete podName "istio-system" = some e) :
    (correctConfigs env c).2.configText "istio-sidecar-injector" "config" =
      injectorRewrite (c.configText "istio-sidecar-injector" "config") := by
  obtain ⟨heq, _, hother⟩ := correctConfigs_of_kiali_passes env c hk
  have ht := configText_congr c (correctKialiConfig env c).2 "istio-sidecar-injector" "config"
    hother
  have hw := rewritten_congr c (correctKialiConfig env c).2 "istio-sidecar-injector" "config"
    injectorRewrite hother
  rw [heq, correctInjectorConfig_eq_correctConfig]
  simp only []
  rw [(correctConfig_of_delete_error _ _ _ _ env _ e hr (by rw [ht]; exact hx)
    (by rw [hw]; exact hu) hd).2, ht]

/-- Both corrections pass: the function completes and both texts are stored rewritten. -/
theorem correctConfigs_of_passes (env : Env) (c : Cluster)
    (hk : correctionPasses env c "kiali" "config.yaml" "kiali" kialiRewrite)
    (hi : correctionPasses env c "istio-sidecar-injector" "config" "sidecarInjectorWebhook"
      injectorRewrite) :
    (correctConfigs env c).1 = ⟨Result.empty, none⟩
      ∧ (correctConfigs env c).2.configText "kiali" "config.yaml" =
          kialiRewrite (c.configText "kiali" "config.yaml")
      ∧ (correctConfigs env c).2.configText "istio-sidecar-injector" "config" =
          injectorRewrite (c.configText "istio-sidecar-injector" "config") := by
  obtain ⟨heq, htext, hother⟩ := correctConfigs_of_kiali_passes env c hk
  have ht := configText_congr c (correctKialiConfig env c).2 "istio-sidecar-injector" "config"
    hother
  have hw := rewritten_congr c (correctKialiConfig env c).2 "istio-sidecar-injector" "config"
    injectorRewrite hother
  have hi' : correctionPasses env (correctKialiConfig env c).2 "istio-sidecar-injector" "config"
      "sidecarInjectorWebhook" injectorRewrite := by
    unfold correctionPasses at hi ⊢
    rw [ht, hw]
    exact hi
  have hp := correctConfig_of_passes "istio-sidecar-injector" "config" "sidecarInjectorWebhook"
    injectorRewrite env _ hi'
  refine ⟨?_, htext, ?_⟩
  · rw [heq, correctInjectorConfig_eq_correctConfig, hp.1]
  · rw [heq, correctInjectorConfig_eq_correctConfig]
    simp only []
    rw [hp.2, ht]

/-- The orchestrator once the gate holds: an error of the corrections is returned as it is and
the document is left alone. -/
theorem reconcileServiceMesh_of_correction_error (inst : Workshop) (users : Int) (env : Env)
    (c : Cluster) (e : GoError)
    (hen : (inst.Infrastructure.ServiceMesh.Enabled || inst.Infrastructure.ServerlessEnabled)
      = true)
    (hc : ∀ o, createFailed (env.create o) = false)
    (ha : ∀ csv name ns, env.approveInstallPlan csv name ns = none)
    (hk : env.deploymentStatus "kiali" "istio-system" = true)
    (h : (correctConfigs env
      ⟨c.configMaps, c.trace ++ operatorsPreamble inst ++ meshPreamble inst users⟩).1 =
        ⟨Result.empty, some e⟩) :
    (reconcileServiceMesh inst users env c).1 = (⟨Result.empty, some e⟩, inst)
      ∧ (reconcileServiceMesh inst users env c).2 = (correctConfigs env
          ⟨c.configMaps, c.trace ++ operatorsPreamble inst ++ meshPreamble inst users⟩).2 := by
  rw [reconcileServiceMesh_of_created inst users env c hen hc ha]
  simp only [hk, if_true, h, Option.isSome_some]
  exact ⟨trivial, trivial⟩

/-- The orchestrator once the gate holds and the corrections complete: the feature is marked
installed and the stored texts are those the corrections left. -/
theorem reconcileServiceMesh_of_correction_done (inst : Workshop) (users : Int) (env : Env)
    (c : Cluster)
    (hen : (inst.Infrastructure.ServiceMesh.Enabled || inst.Infrastructure.ServerlessEnabled)
      = true)
    (hc : ∀ o, createFailed (env.create o) = false)
    (ha : ∀ csv name ns, env.approveInstallPlan csv name ns = none)
    (hk : env.deploymentStatus "kiali" "istio-system" = true)
    (h : (correctConfigs env
      ⟨c.configMaps, c.trace ++ operatorsPreamble inst ++ meshPreamble inst users⟩).1 =
        ⟨Result.empty, none⟩) :
    (reconcileServiceMesh inst users env c).1.1 = ⟨Result.empty, none⟩
      ∧ (reconcileServiceMesh inst users env c).1.2.Status.ServiceMesh = OperatorStatusInstalled
      ∧ ∀ name key, (reconcileServiceMesh inst users env c).2.configText name key =
          (correctConfigs env
            ⟨c.configMaps, c.trace ++ operatorsPreamble inst ++ meshPreamble inst users⟩).2.configText
            name key := by
  rw [reconcileServiceMesh_of_created inst users env c hen hc ha]
  simp only [hk, if_true, h, Option.isSome_none, Bool.false_eq_true, if_false]
  by_cases hs : inst.Status.ServiceMesh = OperatorStatusInstalled
  · simp [hs]
  · simp [hs, configText_log]

/-! ## The claims -/

/-- C7: for every `config.yaml` text the Kiali rewrite keeps the number of lines, overwrites
exactly the first line that contains `app_label_name:` with
`  app_label_name: app.kubernetes.io/instance` and leaves every other line as it was; when no
line contains `app_label_name:` the text comes back unchanged; and the text
`foo: 1 / app_label_name: old / bar: 2` becomes
`foo: 1 /   app_label_name: app.kubernetes.io/instance / bar: 2`. -/
theorem C7_kiali_rewrite_touches_only_the_target_line (config : String) :
    splitLines (kialiRewrite config).data =
        (splitLines config.data).set
          ((splitLines config.data).findIdx (containsChars appLabelMarker.data))
          appLabelLine.data
      ∧ (splitLines (kialiRewrite config).data).length = (splitLines config.data).length
      ∧ ((splitLines config.data).any (containsChars appLabelMarker.data) = false →
          kialiRewrite config = config)
      ∧ kialiRewrite "foo: 1\napp_label_name: old\nbar: 2" =
          "foo: 1\n  app_label_name: app.kubernetes.io/instance\nbar: 2" := by
  refine ⟨?_, ?_, ?_, by decide⟩
  · rw [splitLines_kialiRewrite, replaceFirstLine_eq_set]
  · rw [splitLines_kialiRewrite, replaceFirstLine_length]
  · intro h
    unfold kialiRewrite
    rw [replaceFirstLine_of_none _ _ _ h, joinLines_splitLines]

/-- C7, at a text without the marker: it is returned as it is. -/
theorem C7_kiali_rewrite_witness :
    kialiRewrite "foo: 1\nbar: 2" = "foo: 1\nbar: 2" :=
  (C7_kiali_rewrite_touches_only_the_target_line "foo: 1\nbar: 2").2.2.1 (by decide)

/-- C10, as the claim states it, fails: with the service-mesh toggle off and the serverless
toggle on, `reconcileServiceMesh` still calls the store and marks the feature installed. -/
theorem C10_serverless_toggle_counterexample :
    docServerlessOnly.Infrastructure.ServiceMesh.Enabled = false
      ∧ (reconcileServiceMesh docServerlessOnly 0 envAllOk Cluster.init).2.trace ≠ []
      ∧ (reconcileServiceMesh docServerlessOnly 0 envAllOk Cluster.init).1.2.Status
          ≠ docServerlessOnly.Status := by
  decide

/-- C10, amended: with the pipeline toggle off `reconcilePipeline`, and with both the
service-mesh and the serverless toggle off `reconcileServiceMesh`, makes no call, leaves the
document and the cluster as they were and returns the empty result with no error. -/
theorem C10_disabled_feature_is_untouched (inst : Workshop) (users : Int) (env : Env)
    (c : Cluster) :
    (inst.Infrastructure.Pipeline.Enabled = false →
        reconcilePipeline inst env c = ((⟨Result.empty, none⟩, inst), c))
      ∧ (inst.Infrastructure.ServiceMesh.Enabled = false →
          inst.Infrastructure.ServerlessEnabled = false →
          reconcileServiceMesh inst users env c = ((⟨Result.empty, none⟩, inst), c))
      ∧ (⟨Result.empty, none⟩ : Ret).outcome = Outcome.Done :=
  ⟨reconcilePipeline_disabled inst env c, reconcileServiceMesh_disabled inst users env c, rfl⟩

/-- C10 amended, at a document with every toggle off. -/
theorem C10_disabled_feature_witness :
    reconcilePipeline docDisabled envAllOk clusterDrifted
        = ((⟨Result.empty, none⟩, docDisabled), clusterDrifted)
      ∧ reconcileServiceMesh docDisabled 3 envAllOk clusterDrifted
        = ((⟨Result.empty, none⟩, docDisabled), clusterDrifted) :=
  ⟨(C10_disabled_feature_is_untouched docDisabled 3 envAllOk clusterDrifted).1 (by decide),
    (C10_disabled_feature_is_untouched docDisabled 3 envAllOk clusterDrifted).2.1
      (by decide) (by decide)⟩

/-- C1, what the code does: in a cycle where no create fails, every install plan is approved
and the Kiali deployment is not ready, `addServiceMesh` stops at the readiness gate with the
requeue result and no error, and `reconcileServiceMesh` nevertheless sets `Status.ServiceMesh`
to `Installed` and issues the status `Update` right after the gate. -/
theorem C1_gate_stop_still_marks_installed (inst : Workshop) (users : Int) (env : Env)
    (c : Cluster)
    (hen : (inst.Infrastructure.ServiceMesh.Enabled || inst.Infrastructure.ServerlessEnabled)
      = true)
    (hc : ∀ o, createFailed (env.create o) = false)
    (ha : ∀ csv name ns, env.approveInstallPlan csv name ns = none)
    (hk : env.deploymentStatus "kiali" "istio-system" = false)
    (hs : inst.Status.ServiceMesh ≠ OperatorStatusInstalled) :
    addServiceMesh inst users env ⟨c.configMaps, c.trace ++ operatorsPreamble inst⟩ =
        (⟨⟨true, Second * 1⟩, none⟩,
          ⟨c.configMaps, c.trace ++ operatorsPreamble inst ++ meshPreamble inst users⟩)
      ∧ (reconcileServiceMesh inst users env c).1.2.Status.ServiceMesh = OperatorStatusInstalled
      ∧ (reconcileServiceMesh inst users env c).2.trace =
          c.trace ++ operatorsPreamble inst ++ meshPreamble inst users ++
            [Op.StatusUpdate ⟨OperatorStatusInstalled, inst.Status.Pipeline⟩] := by
  refine ⟨?_, ?_, ?_⟩
  · rw [addServiceMesh_of_created inst users env _ hc (ha _ _ _)]
    simp [hk]
  · rw [reconcileServiceMesh_of_created inst users env c hen hc ha]
    simp [hk, hs]
  · rw [reconcileServiceMesh_of_created inst users env c hen hc ha]
    simp [hk, hs, Cluster.log]

/-- C1, at a concrete not-ready cluster with two users. -/
theorem C1_gate_stop_witness :
    (reconcileServiceMesh docEnabled 2 envKialiNotReady Cluster.init).1.2.Status.ServiceMesh
        = OperatorStatusInstalled
      ∧ (reconcileServiceMesh docEnabled 2 envKialiNotReady Cluster.init).2.trace =
          Cluster.init.trace ++ operatorsPreamble docEnabled ++ meshPreamble docEnabled 2 ++
            [Op.StatusUpdate ⟨OperatorStatusInstalled, docEnabled.Status.Pipeline⟩] :=
  (C1_gate_stop_still_marks_installed docEnabled 2 envKialiNotReady Cluster.init (by decide)
    (fun _ => rfl) (fun _ _ _ => rfl) rfl (by decide)).2

/-- C4, what the code does: in a cycle where no create fails, every install plan is approved
and the Kiali deployment is not ready, the stage `addServiceMesh` yields the outcome
`RequeueAfter` of one second, but `reconcileServiceMesh` returns the empty result with no error,
that is `Done`. -/
theorem C4_gate_stop_is_returned_as_done (inst : Workshop) (users : Int) (env : Env)
    (c : Cluster)
    (hen : (inst.Infrastructure.ServiceMesh.Enabled || inst.Infrastructure.ServerlessEnabled)
      = true)
    (hc : ∀ o, createFailed (env.create o) = false)
    (ha : ∀ csv name ns, env.approveInstallPlan csv name ns = none)
    (hk : env.deploymentStatus "kiali" "istio-system" = false) :
    (addServiceMesh inst users env ⟨c.configMaps, c.trace ++ operatorsPreamble inst⟩).1.outcome
        = Outcome.RequeueAfter (Second * 1)
      ∧ (reconcileServiceMesh inst users env c).1.1 = ⟨Result.empty, none⟩
      ∧ (reconcileServiceMesh inst users env c).1.1.outcome = Outcome.Done := by
  have h1 : (reconcileServiceMesh inst users env c).1.1 = ⟨Result.empty, none⟩ := by
    rw [reconcileServiceMesh_of_created inst users env c hen hc ha]
    by_cases hs : inst.Status.ServiceMesh = OperatorStatusInstalled <;> simp [hk, hs]
  refine ⟨?_, h1, ?_⟩
  · rw [addServiceMesh_of_created inst users env _ hc (ha _ _ _)]
    simp [hk, Ret.outcome]
  · rw [h1]; rfl

/-- C4, at a concrete not-ready cluster with two users. -/
theorem C4_gate_stop_witness :
    (reconcileServiceMesh docEnabled 2 envKialiNotReady Cluster.init).1.1.outcome
      = Outcome.Done :=
  (C4_gate_stop_is_returned_as_done docEnabled 2 envKialiNotReady Cluster.init (by decide)
    (fun _ => rfl) (fun _ _ _ => rfl) rfl).2.2

/-- C5: in a cluster as one fully successful cycle leaves it (no create fails, "already exists"
included; every install plan is approved; Kiali is ready; both configuration texts are fixed
points of their rewrites; both status fields are `Installed`), a further call of
`reconcilePipeline` or `reconcileServiceMesh` returns the empty result with no error, leaves
the document and the ConfigMaps as they were and adds no ConfigMap `Update`, no pod `Delete`
and no status `Update` to the trace; and an "already exists" answer never counts as a failed
create. -/
theorem C5_cycle_after_success_changes_nothing (inst : Workshop) (users : Int) (env : Env)
    (c : Cluster)
    (hc : ∀ o, createFailed (env.create o) = false)
    (ha : ∀ csv name ns, env.approveInstallPlan csv name ns = none)
    (hk : env.deploymentStatus "kiali" "istio-system" = true)
    (hr1 : env.effectiveConfigMap "kiali" "istio-system" = none)
    (hr2 : env.effectiveConfigMap "istio-sidecar-injector" "istio-system" = none)
    (hx : kialiRewrite (c.configText "kiali" "config.yaml") = c.configText "kiali" "config.yaml")
    (hy : injectorRewrite (c.configText "istio-sidecar-injector" "config") =
      c.configText "istio-sidecar-injector" "config")
    (hsm : inst.Status.ServiceMesh = OperatorStatusInstalled)
    (hsp : inst.Status.Pipeline = OperatorStatusInstalled) :
    ((reconcilePipeline inst env c).1 = (⟨Result.empty, none⟩, inst)
        ∧ (reconcilePipeline inst env c).1.1.outcome = Outcome.Done
        ∧ (reconcilePipeline inst env c).2.configMaps = c.configMaps
        ∧ (reconcilePipeline inst env c).2.trace.countP Op.isWrite = c.trace.countP Op.isWrite)
      ∧ ((reconcileServiceMesh inst users env c).1 = (⟨Result.empty, none⟩, inst)
        ∧ (reconcileServiceMesh inst users env c).1.1.outcome = Outcome.Done
        ∧ (reconcileServiceMesh inst users env c).2.configMaps = c.configMaps
        ∧ (reconcileServiceMesh inst users env c).2.trace.countP Op.isWrite
            = c.trace.countP Op.isWrite)
      ∧ (reconcileServiceMesh inst users env c).1.2.Status.ServiceMesh = OperatorStatusInstalled
      ∧ ∀ msg, createFailed (some (GoError.alreadyExists msg)) = false := by
  refine ⟨?_, ?_, ?_, createFailed_alreadyExists⟩
  · cases hp : inst.Infrastructure.Pipeline.Enabled with
    | false =>
      rw [reconcilePipeline_disabled inst env c hp]
      exact ⟨rfl, rfl, rfl, rfl⟩
    | true =>
      rw [reconcilePipeline_of_approved inst env c hp hc ha]
      simp [hsp, Ret.outcome, Result.empty, List.countP_append, countP_isWrite_pipelineOps]
  · by_cases hen : (inst.Infrastructure.ServiceMesh.Enabled ||
        inst.Infrastructure.ServerlessEnabled) = true
    · rw [reconcileServiceMesh_of_clean inst users env c hen hc ha hk hr1 hr2 hx hy]
      simp [hsm, Ret.outcome, Result.empty, List.countP_append, countP_isWrite_cleanCycleOps]
    · simp only [Bool.or_eq_true, not_or, Bool.not_eq_true] at hen
      rw [reconcileServiceMesh_disabled inst users env c hen.1 hen.2]
      exact ⟨rfl, rfl, rfl, rfl⟩
  · by_cases hen : (inst.Infrastructure.ServiceMesh.Enabled ||
        inst.Infrastructure.ServerlessEnabled) = true
    · rw [reconcileServiceMesh_of_clean inst users env c hen hc ha hk hr1 hr2 hx hy]
      simp [hsm]
    · simp only [Bool.or_eq_true, not_or, Bool.not_eq_true] at hen
      rw [reconcileServiceMesh_disabled inst users env c hen.1 hen.2]
      exact hsm

/-- C5, at an installed document, three users, a cluster whose two texts are rewritten and a
store that answers "already exists" to every create. -/
theorem C5_cycle_after_success_witness :
    (reconcilePipeline docInstalled envAlreadyExists clusterCorrected).1
        = (⟨Result.empty, none⟩, docInstalled)
      ∧ (reconcileServiceMesh docInstalled 3 envAlreadyExists clusterCorrected).1
        = (⟨Result.empty, none⟩, docInstalled)
      ∧ (reconcileServiceMesh docInstalled 3 envAlreadyExists clusterCorrected).2.trace.countP
          Op.isWrite = 0 :=
  have h := C5_cycle_after_success_changes_nothing docInstalled 3 envAlreadyExists
    clusterCorrected (fun _ => rfl) (fun _ _ _ => rfl) rfl rfl rfl (by decide) (by decide)
    rfl rfl
  ⟨h.1.1, h.2.1.1, h.2.1.2.2.2⟩

/-- C8, what the code does: when every stage succeeded, the status is not yet `Installed` and
the status write fails with `e`, `reconcilePipeline` returns the empty result with `e`, but
`reconcileServiceMesh`, after issuing the same kind of write, returns the empty result with no
error: the outcome is `Done` and `e` is dropped. -/
theorem C8_status_write_failure_is_dropped_by_mesh (inst : Workshop) (users : Int) (env : Env)
    (c : Cluster) (e : GoError)
    (hp : inst.Infrastructure.Pipeline.Enabled = true)
    (hen : (inst.Infrastructure.ServiceMesh.Enabled || inst.Infrastructure.ServerlessEnabled)
      = true)
    (hc : ∀ o, createFailed (env.create o) = false)
    (ha : ∀ csv name ns, env.approveInstallPlan csv name ns = none)
    (hk : env.deploymentStatus "kiali" "istio-system" = true)
    (hr1 : env.effectiveConfigMap "kiali" "istio-system" = none)
    (hr2 : env.effectiveConfigMap "istio-sidecar-injector" "istio-system" = none)
    (hx : kialiRewrite (c.configText "kiali" "config.yaml") = c.configText "kiali" "config.yaml")
    (hy : injectorRewrite (c.configText "istio-sidecar-injector" "config") =
      c.configText "istio-sidecar-injector" "config")
    (hsm : inst.Status.ServiceMesh ≠ OperatorStatusInstalled)
    (hsp : inst.Status.Pipeline ≠ OperatorStatusInstalled)
    (hf : ∀ st, env.statusUpdate st = some e) :
    (reconcilePipeline inst env c).1.1 = ⟨Result.empty, some e⟩
      ∧ (reconcilePipeline inst env c).1.1.outcome = Outcome.Error e
      ∧ (reconcileServiceMesh inst users env c).1.1 = ⟨Result.empty, none⟩
      ∧ (reconcileServiceMesh inst users env c).1.1.outcome = Outcome.Done
      ∧ (reconcileServiceMesh inst users env c).2.trace =
          c.trace ++ cleanCycleOps inst users ++
            [Op.StatusUpdate ⟨OperatorStatusInstalled, inst.Status.Pipeline⟩] := by
  rw [reconcilePipeline_of_approved inst env c hp hc ha,
    reconcileServiceMesh_of_clean inst users env c hen hc ha hk hr1 hr2 hx hy]
  simp [hsm, hsp, hf, Ret.outcome, Result.empty]

/-- C8, at a document that is not installed yet and a store whose status write fails. -/
theorem C8_status_write_failure_witness :
    (reconcilePipeline docEnabled envStatusFails clusterCorrected).1.1.outcome
        = Outcome.Error (GoError.other "status update failed")
      ∧ (reconcileServiceMesh docEnabled 1 envStatusFails clusterCorrected).1.1.outcome
        = Outcome.Done :=
  have h := C8_status_write_failure_is_dropped_by_mesh docEnabled 1 envStatusFails
    clusterCorrected (GoError.other "status update failed") rfl (by decide) (fun _ => rfl)
    (fun _ _ _ => rfl) rfl rfl rfl (by decide) (by decide) (by decide) (by decide)
    (fun _ => rfl)
  ⟨h.2.1, h.2.2.2.1⟩

/-- C2, as the claim states it, fails: when `ApproveInstallPlan` answers that no install plan
exists yet, both orchestrators return that error, so the outcome is `Error` and not
`RequeueAfter`. -/
theorem C2_pending_plan_counterexample :
    (reconcilePipeline docEnabled envPlanPending Cluster.init).1.1.outcome =
        Outcome.Error (GoError.other "InstallPlan Approval: Subscription is not ready yet")
      ∧ (reconcileServiceMesh docEnabled 2 envPlanPending Cluster.init).1.1.outcome =
        Outcome.Error (GoError.other "InstallPlan Approval: Subscription is not ready yet")
      ∧ (addPipeline docEnabled envPlanPending Cluster.init).1 =
        ⟨Result.empty,
          some (GoError.other "InstallPlan Approval: Subscription is not ready yet")⟩ := by
  decide

/-- C2, amended: when no create fails and `ApproveInstallPlan` answers the error `e` for a
stage (the approvals of the stages before it having succeeded), that stage returns the empty
result together with `e`, and its orchestrator returns exactly that pair and leaves the
document as it was, so the outcome handed to the scheduler is `Error e`. -/
theorem C2_pending_install_plan_is_returned_as_error (inst : Workshop) (users : Int)
    (env : Env) (c : Cluster) (e : GoError)
    (hc : ∀ o, createFailed (env.create o) = false) :
    (env.approveInstallPlan inst.Infrastructure.Pipeline.OperatorHub.ClusterServiceVersion
          "openshift-pipelines-operator-rh" "openshift-operators" = some e →
        (addPipeline inst env c).1 = ⟨Result.empty, some e⟩
          ∧ (inst.Infrastructure.Pipeline.Enabled = true →
              (reconcilePipeline inst env c).1 = (⟨Result.empty, some e⟩, inst)))
      ∧ (env.approveInstallPlan
            inst.Infrastructure.ServiceMesh.ElasticSearchOperatorHub.ClusterServiceVersion
            "elasticsearch-operator" "openshift-operators-redhat" = some e →
          (addElasticSearchOperator inst env c).1 = ⟨Result.empty, some e⟩
            ∧ ((inst.Infrastructure.ServiceMesh.Enabled ||
                  inst.Infrastructure.ServerlessEnabled) = true →
                (reconcileServiceMesh inst users env c).1 = (⟨Result.empty, some e⟩, inst)))
      ∧ (env.approveInstallPlan
            inst.Infrastructure.ServiceMesh.ElasticSearchOperatorHub.ClusterServiceVersion
            "elasticsearch-operator" "openshift-operators-redhat" = none →
          env.approveInstallPlan
            inst.Infrastructure.ServiceMesh.JaegerOperatorHub.ClusterServiceVersion
            "jaeger-product" "openshift-operators" = some e →
          (addJaegerOperator inst env c).1 = ⟨Result.empty, some e⟩
            ∧ ((inst.Infrastructure.ServiceMesh.Enabled ||
                  inst.Infrastructure.ServerlessEnabled) = true →
                (reconcileServiceMesh inst users env c).1 = (⟨Result.empty, some e⟩, inst)))
      ∧ (env.approveInstallPlan
            inst.Infrastructure.ServiceMesh.ElasticSearchOperatorHub.ClusterServiceVersion
            "elasticsearch-operator" "openshift-operators-redhat" = none →
          env.approveInstallPlan
            inst.Infrastructure.ServiceMesh.JaegerOperatorHub.ClusterServiceVersion
            "jaeger-product" "openshift-operators" = none →
          env.approveInstallPlan
            inst.Infrastructure.ServiceMesh.KialiOperatorHub.ClusterServiceVersion
            "kiali-ossm" "openshift-operators" = some e →
          (addKialiOperator inst env c).1 = ⟨Result.empty, some e⟩
            ∧ ((inst.Infrastructure.ServiceMesh.Enabled ||
                  inst.Infrastructure.ServerlessEnabled) = true →
                (reconcileServiceMesh inst users env c).1 = (⟨Result.empty, some e⟩, inst)))
      ∧ (env.approveInstallPlan
            inst.Infrastructure.ServiceMesh.ElasticSearchOperatorHub.ClusterServiceVersion
            "elasticsearch-operator" "openshift-operators-redhat" = none →
          env.approveInstallPlan
            inst.Infrastructure.ServiceMesh.JaegerOperatorHub.ClusterServiceVersion
            "jaeger-product" "openshift-operators" = none →
          env.approveInstallPlan
            inst.Infrastructure.ServiceMesh.KialiOperatorHub.ClusterServiceVersion
            "kiali-ossm" "openshift-operators" = none →
          env.approveInstallPlan
            inst.Infrastructure.ServiceMesh.ServiceMeshOperatorHub.ClusterServiceVersion
            "servicemeshoperator" "openshift-operators" = some e →
          (addServiceMesh inst users env c).1 = ⟨Result.empty, some e⟩
            ∧ ((inst.Infrastructure.ServiceMesh.Enabled ||
                  inst.Infrastructure.ServerlessEnabled) = true →
                (reconcileServiceMesh inst users env c).1 = (⟨Result.empty, some e⟩, inst)))
      ∧ (⟨Result.empty, some e⟩ : Ret).outcome = Outcome.Error e := by
  refine ⟨?_, ?_, ?_, ?_, ?_, rfl⟩
  · intro h
    refine ⟨by rw [addPipeline_of_created inst env c (hc _), h], fun hp => ?_⟩
    rw [reconcilePipeline_enabled inst env c hp, addPipeline_of_created inst env c (hc _), h]
    simp
  · intro h
    refine ⟨by rw [addElasticSearchOperator_of_created inst env c (hc _) (hc _), h],
      fun hen => ?_⟩
    rw [reconcileServiceMesh_enabled inst users env c hen,
      addElasticSearchOperator_of_created inst env c (hc _) (hc _), h]
    simp
  · intro h1 h
    refine ⟨by rw [addJaegerOperator_of_created inst env c (hc _), h], fun hen => ?_⟩
    rw [reconcileServiceMesh_enabled inst users env c hen,
      addElasticSearchOperator_of_created inst env c (hc _) (hc _), h1]
    simp only [Option.isSome_none, Bool.false_eq_true, if_false]
    rw [addJaegerOperator_of_created inst env _ (hc _), h]
    simp
  · intro h1 h2 h
    refine ⟨by rw [addKialiOperator_of_created inst env c (hc _), h], fun hen => ?_⟩
    rw [reconcileServiceMesh_enabled inst users env c hen,
      addElasticSearchOperator_of_created inst env c (hc _) (hc _), h1]
    simp only [Option.isSome_none, Bool.false_eq_true, if_false]
    rw [addJaegerOperator_of_created inst env _ (hc _), h2]
    simp only [Option.isSome_none, Bool.false_eq_true, if_false]
    rw [addKialiOperator_of_created inst env _ (hc _), h]
    simp
  · intro h1 h2 h3 h
    refine ⟨by rw [addServiceMesh_of_pending inst users env c e (hc _) h], fun hen => ?_⟩
    rw [reconcileServiceMesh_enabled inst users env c hen,
      addElasticSearchOperator_of_created inst env c (hc _) (hc _), h1]
    simp only [Option.isSome_none, Bool.false_eq_true, if_false]
    rw [addJaegerOperator_of_created inst env _ (hc _), h2]
    simp only [Option.isSome_none, Bool.false_eq_true, if_false]
    rw [addKialiOperator_of_created inst env _ (hc _), h3]
    simp only [Option.isSome_none, Bool.false_eq_true, if_false]
    rw [addServiceMesh_of_pending inst users env _ e (hc _) h]
    simp

/-- C2 amended, at a store in which no install plan exists yet. -/
theorem C2_pending_install_plan_witness :
    (addPipeline docEnabled envPlanPending Cluster.init).1 =
        ⟨Result.empty,
          some (GoError.other "InstallPlan Approval: Subscription is not ready yet")⟩
      ∧ (reconcilePipeline docEnabled envPlanPending Cluster.init).1 =
        (⟨Result.empty,
          some (GoError.other "InstallPlan Approval: Subscription is not ready yet")⟩,
          docEnabled)
      ∧ (reconcileServiceMesh docEnabled 2 envPlanPending Cluster.init).1 =
        (⟨Result.empty,
          some (GoError.other "InstallPlan Approval: Subscription is not ready yet")⟩,
          docEnabled) :=
  have h := C2_pending_install_plan_is_returned_as_error docEnabled 2 envPlanPending
    Cluster.init (GoError.other "InstallPlan Approval: Subscription is not ready yet")
    (fun _ => rfl)
  ⟨(h.1 rfl).1, (h.1 rfl).2 rfl, (h.2.1 rfl).2 (by decide)⟩

/-- C3: for every staging-name prefix `p` and user count `N`, the member list `addServiceMesh`
builds is `p1, p2, ..., pN` (the `i`-th entry is `p` followed by the decimal rendering of `i`,
in ascending order of the user id), it has `N` entries for `N >= 0` and none for `N <= 0`, it
has no duplicates, and it depends on `p` and `N` only: whatever the cluster answers, the loop
either returns early or hands exactly this list on. For `N = 5` it is `p1 .. p5`, for `N = 0`
it is empty. -/
theorem C3_member_list_is_prefix_plus_counter (p : String) (N : Int) :
    istioMembers p N = (List.range N.toNat).map (fun i => p ++ toString (i + 1))
      ∧ (istioMembers p N).length = N.toNat
      ∧ (istioMembers p N).Nodup
      ∧ (∀ (env : Env) (c : Cluster),
          (userLoop p (userIds N) [] env c).1 = Except.ok (istioMembers p N)
            ∨ ∃ r, (userLoop p (userIds N) [] env c).1 = Except.error r)
      ∧ istioMembers p 5 = [p ++ "1", p ++ "2", p ++ "3", p ++ "4", p ++ "5"]
      ∧ istioMembers p 0 = [] := by
  refine ⟨?_, ?_, ?_, ?_, ?_, ?_⟩
  · rw [istioMembers_eq_map, userIds, List.range'_eq_map_range, List.map_map]
    apply List.map_congr_left
    intro i _
    simp [Nat.add_comm]
  · rw [istioMembers_eq_map, userIds]
    simp
  · rw [istioMembers_eq_map, userIds]
    exact (List.nodup_range' 1 N.toNat).map (prefixed_name_injective p)
  · intro env c
    have h := userLoop_result p (userIds N) [] env c
    rw [istioMembers_eq_map]
    simpa using h
  · rw [istioMembers_eq_map]
    rfl
  · rfl

/-- C6: both rewrites are idempotent; a correction whose read and write succeed issues a
ConfigMap `Update` exactly when the rewritten text differs from the stored one, and deletes a
pod only in that case; and a second correction, run on what the first persisted, only reads:
it issues no `Update` and no `Delete`. Stated for the Kiali and for the injector
correction. -/
theorem C6_drift_guard (env1 env2 : Env) (c : Cluster)
    (hk1 : env1.effectiveConfigMap "kiali" "istio-system" = none)
    (hk2 : env2.effectiveConfigMap "kiali" "istio-system" = none)
    (hi1 : env1.effectiveConfigMap "istio-sidecar-injector" "istio-system" = none)
    (hi2 : env2.effectiveConfigMap "istio-sidecar-injector" "istio-system" = none)
    (hu : ∀ cm, env1.update cm = none) :
    (∀ x, kialiRewrite (kialiRewrite x) = kialiRewrite x)
      ∧ (∀ x, injectorRewrite (injectorRewrite x) = injectorRewrite x)
      ∧ ((correctKialiConfig env1 c).2.trace.countP Op.isUpdate =
            c.trace.countP Op.isUpdate +
              (if kialiRewrite (c.configText "kiali" "config.yaml") =
                  c.configText "kiali" "config.yaml" then 0 else 1)
          ∧ (correctKialiConfig env1 c).2.trace.countP Op.isDelete ≤
            c.trace.countP Op.isDelete +
              (if kialiRewrite (c.configText "kiali" "config.yaml") =
                  c.configText "kiali" "config.yaml" then 0 else 1)
          ∧ correctKialiConfig env2 (correctKialiConfig env1 c).2 =
            (none, (correctKialiConfig env1 c).2.log
              (Op.GetEffectiveConfigMap "kiali" "istio-system")))
      ∧ ((correctInjectorConfig env1 c).2.trace.countP Op.isUpdate =
            c.trace.countP Op.isUpdate +
              (if injectorRewrite (c.configText "istio-sidecar-injector" "config") =
                  c.configText "istio-sidecar-injector" "config" then 0 else 1)
          ∧ (correctInjectorConfig env1 c).2.trace.countP Op.isDelete ≤
            c.trace.countP Op.isDelete +
              (if injectorRewrite (c.configText "istio-sidecar-injector" "config") =
                  c.configText "istio-sidecar-injector" "config" then 0 else 1)
          ∧ correctInjectorConfig env2 (correctInjectorConfig env1 c).2 =
            (none, (correctInjectorConfig env1 c).2.log
              (Op.GetEffectiveConfigMap "istio-sidecar-injector" "istio-system"))) :=
  ⟨kialiRewrite_idem, injectorRewrite_idem,
    correctConfig_twice "kiali" "config.yaml" "kiali" kialiRewrite kialiRewrite_idem env1 env2 c
      hk1 hk2 (hu _),
    correctConfig_twice "istio-sidecar-injector" "config" "sidecarInjectorWebhook"
      injectorRewrite injectorRewrite_idem env1 env2 c hi1 hi2 (hu _)⟩

/-- C6, at a cluster whose two texts both need the rewrite: one `Update` by the first Kiali
correction, and the second correction only reads. -/
theorem C6_drift_guard_witness :
    (correctKialiConfig envAllOk clusterDrifted).2.trace.countP Op.isUpdate =
        clusterDrifted.trace.countP Op.isUpdate +
          (if kialiRewrite (clusterDrifted.configText "kiali" "config.yaml") =
              clusterDrifted.configText "kiali" "config.yaml" then 0 else 1)
      ∧ correctKialiConfig envAllOk (correctKialiConfig envAllOk clusterDrifted).2 =
        (none, (correctKialiConfig envAllOk clusterDrifted).2.log
          (Op.GetEffectiveConfigMap "kiali" "istio-system")) :=
  have h := C6_drift_guard envAllOk envAllOk clusterDrifted rfl rfl rfl rfl (fun _ => rfl)
  ⟨h.2.2.1.1, h.2.2.1.2.2⟩

/-- C9, as the claim states it, fails: with the Kiali deployment ready and the Kiali
configuration successfully updated, a failed `Delete` of the Kiali pod makes `addServiceMesh`
return that error, and `reconcileServiceMesh` returns it and leaves the document unmarked. -/
theorem C9_failed_restart_counterexample :
    envDeleteFails.deploymentStatus "kiali" "istio-system" = true
      ∧ (addServiceMesh docEnabled 1 envDeleteFails clusterDrifted).1 =
        ⟨Result.empty, some (GoError.other "delete failed")⟩
      ∧ (reconcileServiceMesh docEnabled 1 envDeleteFails clusterDrifted).1 =
        (⟨Result.empty, some (GoError.other "delete failed")⟩, docEnabled)
      ∧ docEnabled.Status.ServiceMesh ≠ OperatorStatusInstalled
      ∧ (reconcileServiceMesh docEnabled 1 envDeleteFails clusterDrifted).2.configText
          "kiali" "config.yaml" =
        "foo: 1\n  app_label_name: app.kubernetes.io/instance\nbar: 2" := by
  decide

/-- C9, amended: once no create fails, every install plan is approved and the readiness gate
holds, each of the two corrections (Kiali `config.yaml`, then the sidecar-injector `config`,
reached when the Kiali correction did not fail) blocks completion on every failure except a pod
that is not found or not fetched: a failed read of its ConfigMap, a failed `Update` of it, or a
failed `Delete` of its pod after a successful `Update` makes `addServiceMesh` return that error
with the empty result, and `reconcileServiceMesh` returns the same pair and leaves the document
as it was. When both corrections meet no failure other than a pod not found or not fetched,
`addServiceMesh` completes with no error and `reconcileServiceMesh` marks the feature
`Installed`. After a successful `Update` the cluster holds the rewritten text in every case:
nothing reverts it. -/
theorem C9_only_pod_lookup_failures_are_tolerated (inst : Workshop) (users : Int) (env : Env)
    (c : Cluster) (e : GoError)
    (hen : (inst.Infrastructure.ServiceMesh.Enabled || inst.Infrastructure.ServerlessEnabled)
      = true)
    (hc : ∀ o, createFailed (env.create o) = false)
    (ha : ∀ csv name ns, env.approveInstallPlan csv name ns = none)
    (hk : env.deploymentStatus "kiali" "istio-system" = true) :
    (env.effectiveConfigMap "kiali" "istio-system" = some e →
        (addServiceMesh inst users env c).1 = ⟨Result.empty, some e⟩
          ∧ (reconcileServiceMesh inst users env c).1 = (⟨Result.empty, some e⟩, inst))
      ∧ (env.effectiveConfigMap "kiali" "istio-system" = none →
          kialiRewrite (c.configText "kiali" "config.yaml") ≠ c.configText "kiali" "config.yaml" →
          env.update (c.rewritten "kiali" "config.yaml" kialiRewrite) = some e →
          (addServiceMesh inst users env c).1 = ⟨Result.empty, some e⟩
            ∧ (reconcileServiceMesh inst users env c).1 = (⟨Result.empty, some e⟩, inst)
            ∧ (reconcileServiceMesh inst users env c).2.configMaps = c.configMaps)
      ∧ (env.effectiveConfigMap "kiali" "istio-system" = none →
          kialiRewrite (c.configText "kiali" "config.yaml") ≠ c.configText "kiali" "config.yaml" →
          env.update (c.rewritten "kiali" "config.yaml" kialiRewrite) = none →
          (∃ podName, env.deploymentPod "kiali" "istio-system" "app" = Except.ok podName
            ∧ env.get podName "istio-system" = none
            ∧ env.delete podName "istio-system" = some e) →
          (addServiceMesh inst users env c).1 = ⟨Result.empty, some e⟩
            ∧ (reconcileServiceMesh inst users env c).1 = (⟨Result.empty, some e⟩, inst)
            ∧ (reconcileServiceMesh inst users env c).2.configText "kiali" "config.yaml" =
                kialiRewrite (c.configText "kiali" "config.yaml"))
      ∧ (correctionPasses env c "kiali" "config.yaml" "kiali" kialiRewrite →
          env.effectiveConfigMap "istio-sidecar-injector" "istio-system" = some e →
          (addServiceMesh inst users env c).1 = ⟨Result.empty, some e⟩
            ∧ (reconcileServiceMesh inst users env c).1 = (⟨Result.empty, some e⟩, inst)
            ∧ (reconcileServiceMesh inst users env c).2.configText "kiali" "config.yaml" =
                kialiRewrite (c.configText "kiali" "config.yaml"))
      ∧ (correctionPasses env c "kiali" "config.yaml" "kiali" kialiRewrite →
          env.effectiveConfigMap "istio-sidecar-injector" "istio-system" = none →
          injectorRewrite (c.configText "istio-sidecar-injector" "config") ≠
            c.configText "istio-sidecar-injector" "config" →
          env.update (c.rewritten "istio-sidecar-injector" "config" injectorRewrite) = some e →
          (addServiceMesh inst users env c).1 = ⟨Result.empty, some e⟩
            ∧ (reconcileServiceMesh inst users env c).1 = (⟨Result.empty, some e⟩, inst)
            ∧ (reconcileServiceMesh inst users env c).2.configText "kiali" "config.yaml" =
                kialiRewrite (c.configText "kiali" "config.yaml"))
      ∧ (correctionPasses env c "kiali" "config.yaml" "kiali" kialiRewrite →
          env.effectiveConfigMap "istio-sidecar-injector" "istio-system" = none →
          injectorRewrite (c.configText "istio-sidecar-injector" "config") ≠
            c.configText "istio-sidecar-injector" "config" →
          env.update (c.rewritten "istio-sidecar-injector" "config" injectorRewrite) = none →
          (∃ podName,
            env.deploymentPod "sidecarInjectorWebhook" "istio-system" "app" = Except.ok podName
            ∧ env.get podName "istio-system" = none
            ∧ env.delete podName "istio-system" = some e) →
          (addServiceMesh inst users env c).1 = ⟨Result.empty, some e⟩
            ∧ (reconcileServiceMesh inst users env c).1 = (⟨Result.empty, some e⟩, inst)
            ∧ (reconcileServiceMesh inst users env c).2.configText "kiali" "config.yaml" =
                kialiRewrite (c.configText "kiali" "config.yaml")
            ∧ (reconcileServiceMesh inst users env c).2.configText
                "istio-sidecar-injector" "config" =
                injectorRewrite (c.configText "istio-sidecar-injector" "config"))
      ∧ (correctionPasses env c "kiali" "config.yaml" "kiali" kialiRewrite →
          correctionPasses env c "istio-sidecar-injector" "config" "sidecarInjectorWebhook"
            injectorRewrite →
          (addServiceMesh inst users env c).1 = ⟨Result.empty, none⟩
            ∧ (reconcileServiceMesh inst users env c).1.1 = ⟨Result.empty, none⟩
            ∧ (reconcileServiceMesh inst users env c).1.2.Status.ServiceMesh =
                OperatorStatusInstalled
            ∧ (reconcileServiceMesh inst users env c).2.configText "kiali" "config.yaml" =
                kialiRewrite (c.configText "kiali" "config.yaml")
            ∧ (reconcileServiceMesh inst users env c).2.configText
                "istio-sidecar-injector" "config" =
                injectorRewrite (c.configText "istio-sidecar-injector" "config")) := by
  have hadd := addServiceMesh_of_created inst users env c hc (ha _ _ _)
  simp only [hk, if_true] at hadd
  have herr := reconcileServiceMesh_of_correction_error inst users env c e hen hc ha hk
  have hdone := reconcileServiceMesh_of_correction_done inst users env c hen hc ha hk
  generalize hg1 : (⟨c.configMaps, c.trace ++ meshPreamble inst users⟩ : Cluster) = g1
    at hadd
  generalize hg2 : (⟨c.configMaps, c.trace ++ operatorsPreamble inst ++
    meshPreamble inst users⟩ : Cluster) = g2 at herr hdone
  have ht1 : ∀ name key, g1.configText name key = c.configText name key := by
    intro name key; rw [← hg1]; rfl
  have ht2 : ∀ name key, g2.configText name key = c.configText name key := by
    intro name key; rw [← hg2]; rfl
  have hw1 : ∀ name key rewrite, g1.rewritten name key rewrite = c.rewritten name key rewrite :=
    by intro name key rewrite; rw [← hg1]; rfl
  have hw2 : ∀ name key rewrite, g2.rewritten name key rewrite = c.rewritten name key rewrite :=
    by intro name key rewrite; rw [← hg2]; rfl
  have hm2 : g2.configMaps = c.configMaps := by rw [← hg2]
  have hp1 : ∀ name key deploy rewrite, correctionPasses env c name key deploy rewrite →
      correctionPasses env g1 name key deploy rewrite := by
    intro name key deploy rewrite h; rw [← hg1]; exact h
  have hp2 : ∀ name key deploy rewrite, correctionPasses env c name key deploy rewrite →
      correctionPasses env g2 name key deploy rewrite := by
    intro name key deploy rewrite h; rw [← hg2]; exact h
  refine ⟨?_, ?_, ?_, ?_, ?_, ?_, ?_⟩
  · intro hr
    have h2 := correctConfigs_of_read_error env g2 e hr
    refine ⟨by rw [hadd, correctConfigs_of_read_error env g1 e hr], ?_⟩
    exact (herr (by rw [h2])).1
  · intro hr hx hu
    have h1 := correctConfigs_of_update_error env g1 e hr (by rw [ht1]; exact hx)
      (by rw [hw1]; exact hu)
    have h2 := correctConfigs_of_update_error env g2 e hr (by rw [ht2]; exact hx)
      (by rw [hw2]; exact hu)
    refine ⟨by rw [hadd, h1], (herr (by rw [h2])).1, ?_⟩
    rw [(herr (by rw [h2])).2, h2]
    exact hm2
  · intro hr hx hu hd
    obtain ⟨podName, hp, hg, hdel⟩ := hd
    have hres := restartResult_of_delete_error env "kiali" podName e hp hg hdel
    have h1 := correctConfigs_of_restart_error env g1 _ hr (by rw [ht1]; exact hx)
      (by rw [hw1]; exact hu) hres
    have h2 := correctConfigs_of_restart_error env g2 _ hr (by rw [ht2]; exact hx)
      (by rw [hw2]; exact hu) hres
    refine ⟨by rw [hadd, h1], (herr (by rw [h2])).1, ?_⟩
    rw [(herr (by rw [h2])).2, h2]
    simp only []
    rw [(correctKialiConfig_of_updated env g2 hr (by rw [ht2]; exact hx)
      (by rw [hw2]; exact hu)).2.1, ht2]
  · intro hkp hr
    have h1 := correctConfigs_of_injector_error env g1 e (hp1 _ _ _ _ hkp) (Or.inl hr)
    have h2 := correctConfigs_of_injector_error env g2 e (hp2 _ _ _ _ hkp) (Or.inl hr)
    refine ⟨by rw [hadd, h1.1], (herr h2.1).1, ?_⟩
    rw [(herr h2.1).2, h2.2, ht2]
  · intro hkp hr hx hu
    have h1 := correctConfigs_of_injector_error env g1 e (hp1 _ _ _ _ hkp)
      (Or.inr ⟨hr, by rw [ht1]; exact hx, Or.inl (by rw [hw1]; exact hu)⟩)
    have h2 := correctConfigs_of_injector_error env g2 e (hp2 _ _ _ _ hkp)
      (Or.inr ⟨hr, by rw [ht2]; exact hx, Or.inl (by rw [hw2]; exact hu)⟩)
    refine ⟨by rw [hadd, h1.1], (herr h2.1).1, ?_⟩
    rw [(herr h2.1).2, h2.2, ht2]
  · intro hkp hr hx hu hd
    have h1 := correctConfigs_of_injector_error env g1 e (hp1 _ _ _ _ hkp)
      (Or.inr ⟨hr, by rw [ht1]; exact hx, Or.inr ⟨by rw [hw1]; exact hu, hd⟩⟩)
    have h2 := correctConfigs_of_injector_error env g2 e (hp2 _ _ _ _ hkp)
      (Or.inr ⟨hr, by rw [ht2]; exact hx, Or.inr ⟨by rw [hw2]; exact hu, hd⟩⟩)
    have h3 := correctConfigs_of_injector_delete_error env g2 e (hp2 _ _ _ _ hkp) hr
      (by rw [ht2]; exact hx) (by rw [hw2]; exact hu) hd
    refine ⟨by rw [hadd, h1.1], (herr h2.1).1, ?_, ?_⟩
    · rw [(herr h2.1).2, h2.2, ht2]
    · rw [(herr h2.1).2, h3, ht2]
  · intro hkp hip
    have h1 := correctConfigs_of_passes env g1 (hp1 _ _ _ _ hkp) (hp1 _ _ _ _ hip)
    have h2 := correctConfigs_of_passes env g2 (hp2 _ _ _ _ hkp) (hp2 _ _ _ _ hip)
    have hd := hdone h2.1
    refine ⟨by rw [hadd, h1.1], hd.1, hd.2.1, ?_, ?_⟩
    · rw [hd.2.2, h2.2.1, ht2]
    · rw [hd.2.2, h2.2.2, ht2]

/-- C9 amended, at three stores: the Kiali pod `Delete` fails; the injector pod `Delete`
fails; no Kiali pod is found and nothing else fails. -/
theorem C9_only_pod_lookup_failures_witness :
    ((addServiceMesh docEnabled 1 envDeleteFails clusterDrifted).1 =
          ⟨Result.empty, some (GoError.other "delete failed")⟩
        ∧ (reconcileServiceMesh docEnabled 1 envDeleteFails clusterDrifted).1 =
          (⟨Result.empty, some (GoError.other "delete failed")⟩, docEnabled)
        ∧ (reconcileServiceMesh docEnabled 1 envDeleteFails clusterDrifted).2.configText
            "kiali" "config.yaml" =
          kialiRewrite (clusterDrifted.configText "kiali" "config.yaml"))
      ∧ ((addServiceMesh docEnabled 1 envInjectorDeleteFails clusterDrifted).1 =
          ⟨Result.empty, some (GoError.other "delete failed")⟩
        ∧ (reconcileServiceMesh docEnabled 1 envInjectorDeleteFails clusterDrifted).1 =
          (⟨Result.empty, some (GoError.other "delete failed")⟩, docEnabled)
        ∧ (reconcileServiceMesh docEnabled 1 envInjectorDeleteFails clusterDrifted).2.configText
            "kiali" "config.yaml" =
          kialiRewrite (clusterDrifted.configText "kiali" "config.yaml")
        ∧ (reconcileServiceMesh docEnabled 1 envInjectorDeleteFails clusterDrifted).2.configText
            "istio-sidecar-injector" "config" =
          injectorRewrite (clusterDrifted.configText "istio-sidecar-injector" "config"))
      ∧ ((addServiceMesh docEnabled 1 envKialiPodMissing clusterDrifted).1 =
          ⟨Result.empty, none⟩
        ∧ (reconcileServiceMesh docEnabled 1 envKialiPodMissing clusterDrifted).1.1 =
          ⟨Result.empty, none⟩
        ∧ (reconcileServiceMesh docEnabled 1 envKialiPodMissing clusterDrifted).1.2.Status.ServiceMesh
          = OperatorStatusInstalled
        ∧ (reconcileServiceMesh docEnabled 1 envKialiPodMissing clusterDrifted).2.configText
            "kiali" "config.yaml" =
          kialiRewrite (clusterDrifted.configText "kiali" "config.yaml")
        ∧ (reconcileServiceMesh docEnabled 1 envKialiPodMissing clusterDrifted).2.configText
            "istio-sidecar-injector" "config" =
          injectorRewrite (clusterDrifted.configText "istio-sidecar-injector" "config")) :=
  ⟨(C9_only_pod_lookup_failures_are_tolerated docEnabled 1 envDeleteFails clusterDrifted
      (GoError.other "delete failed") (by decide) (fun _ => rfl) (fun _ _ _ => rfl) rfl).2.2.1
      rfl (by decide) rfl ⟨"kiali-pod", rfl, rfl, rfl⟩,
    (C9_only_pod_lookup_failures_are_tolerated docEnabled 1 envInjectorDeleteFails
      clusterDrifted (GoError.other "delete failed") (by decide) (fun _ => rfl)
      (fun _ _ _ => rfl) rfl).2.2.2.2.2.1
      ⟨rfl, Or.inr ⟨rfl, Or.inr (Or.inr ⟨"kiali-pod", rfl, rfl, by decide⟩)⟩⟩
      rfl (by decide) rfl ⟨"sidecarInjectorWebhook-pod", rfl, rfl, by decide⟩,
    (C9_only_pod_lookup_failures_are_tolerated docEnabled 1 envKialiPodMissing clusterDrifted
      (GoError.other "unused") (by decide) (fun _ => rfl) (fun _ _ _ => rfl) rfl).2.2.2.2.2.2
      ⟨rfl, Or.inr ⟨rfl, Or.inl ⟨GoError.other "no pod found", rfl⟩⟩⟩
      ⟨rfl, Or.inr ⟨rfl, Or.inr (Or.inr ⟨"sidecarInjectorWebhook-pod", rfl, rfl, rfl⟩)⟩⟩⟩


end WorkshopOperator
